import Mathlib

/-!
Verification development for the soccer-dashboard data pipeline.

The repository aggregates recent match results per league from an upstream
sports API and serves a "last 7 matches per team" board.  The definitions
below are a shallow embedding of the TypeScript sources:

* `LeagueData.*` embeds `src/lib/leagueData.ts` (the `getLeagueBoards`
  pipeline: season resolution, roster, fixtures across seasons, alias
  resolution by name, stat fetching and board assembly);
* `BuildBoards.*` embeds `src/lib/buildBoards.ts` (`buildAllBoards`, the
  variant used by the cron refresh route);
* `ApiFootball.apiFootball` embeds `src/lib/apifootball.ts`;
* `Part011.getCurrentSeason` embeds the `getCurrentSeason` variant of the
  unnamed source file `part_011`.

Network I/O is modelled by passing the upstream's responses explicitly: an
`Env` record maps each request the code can issue to the response the
upstream would deliver, and the embedded functions are pure functions of
that environment.  Promises/await only sequence these calls in the source,
so the data flow is preserved exactly; sleeps and the concurrency limiter
affect timing only and are not part of the data model.
-/

/-! ### JavaScript value and string primitives -/

/-- A JSON field of TypeScript type `number | string | null`. -/
inductive JsNum where
  | num (n : Int)
  | str (s : String)
  | null
deriving DecidableEq, Repr

/-- ASCII lowercasing of one character, as `String.prototype.toLowerCase`
acts on ASCII letters. -/
def charLower (c : Char) : Char :=
  if 'A' ≤ c ∧ c ≤ 'Z' then Char.ofNat (c.toNat + 32) else c

/-- Lowercase and fold diacritics of one character.  The source computes
`s.toLowerCase().normalize("NFKD").replace(/[̀-ͯ]/g, "")`; for
accented Latin letters NFKD splits the letter from its combining mark and
the mark is then stripped, so the net effect is this character-level fold.
The table covers the Latin-1 accented letters; other characters are left
unchanged (they are later discarded as non-alphanumeric, as in the
source's `replace(/[^a-z0-9]+/g, " ")`). -/
def foldChar (c : Char) : Char :=
  match charLower c with
  | 'á' | 'à' | 'â' | 'ä' | 'ã' | 'å' => 'a'
  | 'é' | 'è' | 'ê' | 'ë' => 'e'
  | 'í' | 'ì' | 'î' | 'ï' => 'i'
  | 'ó' | 'ò' | 'ô' | 'ö' | 'õ' => 'o'
  | 'ú' | 'ù' | 'û' | 'ü' => 'u'
  | 'ñ' => 'n'
  | 'ç' => 'c'
  | 'ý' | 'ÿ' => 'y'
  | 'Á' | 'À' | 'Â' | 'Ä' | 'Ã' | 'Å' => 'a'
  | 'É' | 'È' | 'Ê' | 'Ë' => 'e'
  | 'Í' | 'Ì' | 'Î' | 'Ï' => 'i'
  | 'Ó' | 'Ò' | 'Ô' | 'Ö' | 'Õ' => 'o'
  | 'Ú' | 'Ù' | 'Û' | 'Ü' => 'u'
  | 'Ñ' => 'n'
  | 'Ç' => 'c'
  | d => d

/-- Character class `[a-z0-9]` of the normalization regexes. -/
def isLowerAlnum (c : Char) : Bool :=
  ('a' ≤ c ∧ c ≤ 'z') ∨ ('0' ≤ c ∧ c ≤ '9')

/-- Split a folded character list into its maximal `[a-z0-9]` runs.  The
accumulator holds the current run, reversed. -/
def tokenizeGo : List Char → List Char → List String
  | [], cur => if cur.isEmpty then [] else [String.mk cur.reverse]
  | c :: rest, cur =>
    if isLowerAlnum c then tokenizeGo rest (c :: cur)
    else if cur.isEmpty then tokenizeGo rest []
    else String.mk cur.reverse :: tokenizeGo rest []

/-- The alphanumeric tokens of a name after lowercasing and diacritic
folding.  Replacing every non-alphanumeric run by a single space and
trimming (the source's regex pipeline) yields exactly these tokens joined
by single spaces. -/
def normTokens (s : String) : List String :=
  tokenizeGo (s.data.map foldChar) []

/-- Whether the first character list is a prefix of the second. -/
def charsPrefix : List Char → List Char → Bool
  | [], _ => true
  | _ :: _, [] => false
  | a :: as, b :: bs => a = b && charsPrefix as bs

/-- Whether the needle occurs as a contiguous run of the haystack. -/
def charsContains (hay needle : List Char) : Bool :=
  match hay with
  | [] => needle.isEmpty
  | _ :: rest => charsPrefix needle hay || charsContains rest needle

/-- JavaScript `hay.includes(needle)` (substring test). -/
def strIncludes (hay needle : String) : Bool :=
  charsContains hay.data needle.data

/-- Lexicographic `<` on character lists by code point, as JavaScript
compares strings (code-unit order; identical on the characters used). -/
def charsLt : List Char → List Char → Bool
  | [], [] => false
  | [], _ :: _ => true
  | _ :: _, [] => false
  | a :: as, b :: bs =>
    if a.toNat < b.toNat then true
    else if b.toNat < a.toNat then false
    else charsLt as bs

/-- JavaScript string comparison `a < b`. -/
def strLt (a b : String) : Bool :=
  charsLt a.data b.data

/-- Add an element to a list unless already present: one JavaScript
`Set.add`, preserving insertion order. -/
def insertUniq {α : Type} [DecidableEq α] (l : List α) (x : α) : List α :=
  if x ∈ l then l else l ++ [x]

/-- Overwrite-or-append update of an association list: JavaScript
`Map.set`, which keeps the key's original insertion position. -/
def setAssoc {κ β : Type} [DecidableEq κ] : List (κ × β) → κ → β → List (κ × β)
  | [], k, v => [(k, v)]
  | (k', v') :: rest, k, v =>
    if k' = k then (k', v) :: rest else (k', v') :: setAssoc rest k v

/-- JavaScript `Map.get` on the association-list model. -/
def lookupAssoc {κ β : Type} [DecidableEq κ] (m : List (κ × β)) (k : κ) : Option β :=
  (m.find? (fun p => p.1 = k)).map (·.2)

namespace LeagueData

/-! ### Data model of `src/lib/leagueData.ts` -/

/-- `MatchCard` of `leagueData.ts`.  One of the 7 display slots of a team:
either a real match summary or the blank padding slot. -/
structure MatchCard where
  fixtureId : Nat
  date : String
  opponent : String
  isHome : Bool
  goalsTotal : Option Int
  cornersTotal : Option Int
  cardsTotal : Option Int
deriving DecidableEq, Repr

/-- `TeamBoard` of `leagueData.ts`. -/
structure TeamBoard where
  teamId : Nat
  name : String
  logo : String
  «matches» : List MatchCard
deriving DecidableEq, Repr

/-- `LeagueBoard` of `leagueData.ts`: the per-league output unit. -/
structure LeagueBoard where
  leagueId : Nat
  leagueName : String
  seasonUsed : Option Nat
  error : Option String
  teams : List TeamBoard
deriving DecidableEq, Repr

/-- One entry of the `LEAGUES` configuration constant. -/
structure LeagueConfig where
  leagueId : Nat
  leagueName : String
deriving DecidableEq, Repr

/-- One entry of the `/leagues` response's `seasons` array. -/
structure SeasonEntry where
  year : Nat
  current : Bool
deriving DecidableEq, Repr

/-- One participant (`teams.home` / `teams.away`) of a fixture payload. -/
structure FxSide where
  id : Nat
  name : String
deriving DecidableEq, Repr

/-- One element of the `/fixtures` response
(`fixture.id/date/status.short`, `teams.home/away`, `goals.home/away`). -/
structure Fixture where
  id : Nat
  date : String
  statusShort : String
  home : FxSide
  away : FxSide
  goalsHome : Option Int
  goalsAway : Option Int
deriving DecidableEq, Repr

/-- One row of the `/fixtures/statistics` response: the metric list of one
participant side. -/
structure StatRow where
  statistics : List (String × JsNum)
deriving DecidableEq, Repr

/-- One element of the `/fixtures/events` response. -/
structure CardEvent where
  type : String
  detail : String
deriving DecidableEq, Repr

/-- One team of the `/teams` response. -/
structure TeamInfo where
  teamId : Nat
  name : String
  logo : String
deriving DecidableEq, Repr

/-- The upstream's responses, one field per endpoint the pipeline calls.
`none` stands for an `apiFetch` failure (`!r.ok` after retries); `some`
carries the parsed `response` array.  The embedded pipeline is a pure
function of this record. -/
structure Env where
  leagueSeasons : Nat → Option (List SeasonEntry)
  leagueTeams : Nat → Nat → Option (List TeamInfo)
  leagueFixtures : Nat → Nat → Option (List Fixture)
  teamLastFixtures : Nat → Option (List Fixture)
  statsResp : Nat → Option (List StatRow)
  eventsResp : Nat → Option (List CardEvent)

/-! ### Utilities of `leagueData.ts` -/

/-- The `FINISHED` status set. -/
def FINISHED : List String := ["FT", "AET", "PEN"]

/-- `blankMatch()`: the synthetic padding slot. -/
def blankMatch : MatchCard :=
  { fixtureId := 0, date := "", opponent := "-", isHome := true,
    goalsTotal := none, cornersTotal := none, cardsTotal := none }

/-- `statNumber`: coerce a `number | string | null` stat value to a number
or `null`.  `Number(string)` is modelled by integer parsing; the stats the
pipeline reads (corner and card counts) are integers. -/
def statNumber : JsNum → Option Int
  | .num n => some n
  | .str s => s.toInt?
  | .null => none

/-- `sumNumbers`: `null` when every entry is `null`, otherwise the sum
with `null` entries counted as 0. -/
def sumNumbers (values : List (Option Int)) : Option Int :=
  if values.any (fun x => x ≠ none) then
    some (values.foldl (fun acc v => acc + v.getD 0) 0)
  else none

/-- Descending-by-date order used by `sortByDateDesc`'s comparator
(`a.fixture.date < b.fixture.date ? 1 : a.fixture.date > b.fixture.date ? -1 : 0`):
`a` may come before `b` unless `a.date < b.date`. -/
def dateGe (a b : Fixture) : Prop := strLt a.date b.date = false

instance : DecidableRel dateGe := fun _ _ => instDecidableEqBool _ _

/-- `sortByDateDesc`: a stable comparator sort, newest first.  JavaScript
`Array.prototype.sort` is stable, so it computes the stable insertion
sort under the comparator's order. -/
def sortByDateDesc (l : List Fixture) : List Fixture :=
  List.insertionSort dateGe l

/-- `normName`: lowercase, strip diacritics, replace non-alphanumeric
runs by single spaces, trim. -/
def normName (s : String) : String :=
  String.intercalate " " (normTokens s)

/-- `tokens`: the token set of a normalized name.  JavaScript `Set`
iterates in insertion order, so the set is the token list deduplicated
keeping first occurrences. -/
def tokens (s : String) : List String :=
  (normTokens (normName s)).foldl insertUniq []

/-- `nameMatches`: exact, containment, or token overlap of at least 0.6
on either side.  `common / size >= 0.6` on IEEE doubles coincides with
`5 * common >= 3 * size` at token-set sizes (the quotient is either
exactly a multiple of 1/size, whose rounded double sits far from 0.6
except at exactly 3/5). -/
def nameMatches (a b : String) : Bool :=
  let A := normName a
  let B := normName b
  if A = "" ∨ B = "" then false
  else if A = B then true
  else if strIncludes A B ∨ strIncludes B A then true
  else
    let ta := tokens A
    let tb := tokens B
    if ta.length = 0 ∨ tb.length = 0 then false
    else
      let common := (ta.filter (fun x => x ∈ tb)).length
      decide (5 * common ≥ 3 * ta.length) || decide (5 * common ≥ 3 * tb.length)

/-- The number of shared tokens of two normalized names (the
intersection size of their token sets). -/
def commonTokens (A B : String) : Nat :=
  ((tokens A).filter (fun x => x ∈ tokens B)).length

/-- The spec's wording of the name-match rule, for comparison with the
source's `nameMatches`: after normalization the names match if they are
equal, one contains the other, or the token-overlap ratio (shared tokens
divided by either name's token count, as an exact rational) reaches the
0.6 threshold; empty normalized names never match. -/
def specNameMatches (a b : String) : Prop :=
  let A := normName a
  let B := normName b
  A ≠ "" ∧ B ≠ "" ∧
    (A = B ∨ strIncludes A B = true ∨ strIncludes B A = true ∨
      (tokens A ≠ [] ∧ tokens B ≠ [] ∧
        ((3 / 5 : ℚ) ≤ (commonTokens A B : ℚ) / ((tokens A).length : ℚ) ∨
         (3 / 5 : ℚ) ≤ (commonTokens A B : ℚ) / ((tokens B).length : ℚ))))

/-! ### `apiFetch`: the rate-limited fetch client

One call of the underlying `fetch` either resolves to a response (status,
body text, status text, parsed JSON payload) or rejects with a network
error; `attempt ↦ HttpEvent` gives the outcome of the request issued on
each attempt.  A JSON parse failure follows the same `catch` path as a
network rejection in the source and is covered by `netErr`.  `apiFetch`
returns the tagged result together with the list of backoff delays slept
(in order) and the number of requests issued. -/

/-- Outcome of one underlying `fetch` call. -/
inductive HttpEvent (α : Type) where
  | resp (status : Nat) (body : String) (statusText : String) (data : α)
  | netErr (msg : String)

/-- The tagged result type
`{ ok: true; data: T } | { ok: false; error: string; status?: number }`. -/
inductive FetchResult (α : Type) where
  | ok (data : α)
  | err (error : String) (status : Option Nat)
deriving DecidableEq, Repr

/-- The delay slept after a 429 on the given 1-based attempt:
`Math.min(cap, base * Math.pow(2, attempt - 1))`. -/
def backoffDelay (base cap attempt : Nat) : Nat :=
  min cap (base * 2 ^ (attempt - 1))

/-- The retry loop of `apiFetch`, parameterized by the 429 and network
backoff schedules (`leagueData.ts` uses base 1000 cap 20000 and base 700
cap 12000; the `part_001` variant uses 900/20000 and 600/12000).
`remaining` counts the attempts left (`maxAttempts - attempt + 1`);
exhausting the loop yields the final `"Unknown error"` result (the loop
runs out only when the last attempt got a 429, every earlier attempt
having got a 429 or a network error). -/
def apiFetchGo {α : Type} (resp : Nat → HttpEvent α) (base429 cap429 baseNet capNet : Nat) :
    Nat → Nat → FetchResult α × List Nat × Nat
  | _, 0 => (.err "Unknown error" none, [], 0)
  | attempt, remaining + 1 =>
    match resp attempt with
    | .netErr m =>
      if remaining = 0 then (.err ("Network error: " ++ m) none, [], 1)
      else
        let r := apiFetchGo resp base429 cap429 baseNet capNet (attempt + 1) remaining
        (r.1, backoffDelay baseNet capNet attempt :: r.2.1, r.2.2 + 1)
    | .resp status body statusText d =>
      if status = 429 then
        let r := apiFetchGo resp base429 cap429 baseNet capNet (attempt + 1) remaining
        (r.1, backoffDelay base429 cap429 attempt :: r.2.1, r.2.2 + 1)
      else if 200 ≤ status ∧ status ≤ 299 then (.ok d, [], 1)
      else
        (.err ("API " ++ toString status ++ ": " ++ (if body = "" then statusText else body))
          (some status), [], 1)

/-- `apiFetch` of `leagueData.ts`: a missing API key returns the tagged
error at once, with no request and no retry; otherwise the 7-attempt
retry loop runs. -/
def apiFetch {α : Type} (hasKey : Bool) (resp : Nat → HttpEvent α) :
    FetchResult α × List Nat × Nat :=
  if hasKey then apiFetchGo resp 1000 20000 700 12000 1 7
  else (.err "Missing APISPORTS_KEY env var" none, [], 0)

/-! ### Core fetchers of `leagueData.ts` -/

/-- `getCurrentSeason`: `seasons.find(s => s.current)?.year ??
seasons[0]?.year ?? null`.  The argument is the `response[0].seasons`
array of the `/leagues` payload (`[]` when the response is empty), or
`none` when the fetch failed. -/
def getCurrentSeason (resp : Option (List SeasonEntry)) : Option Nat :=
  match resp with
  | none => none
  | some seasons =>
    match seasons.find? (fun s => s.current) with
    | some s => some s.year
    | none => seasons.head?.map (fun s => s.year)

/-- `getTeamsForLeague`: `null` on fetch failure, otherwise the roster
(each mapped to a `TeamBoard` with empty matches in the source; the
mapping is deferred to board assembly here). -/
def getTeamsForLeague (env : Env) (leagueId season : Nat) : Option (List TeamInfo) :=
  env.leagueTeams leagueId season

/-- One season's finished fixtures inside
`getLeagueFinishedFixturesAcrossSeasons`: a failed fetch contributes
nothing (`if (!r.ok) continue`), otherwise the fixtures whose status is
in `FINISHED`. -/
def fetchSeasonFinished (env : Env) (leagueId s : Nat) : List Fixture :=
  match env.leagueFixtures leagueId s with
  | none => []
  | some l => l.filter (fun fx => fx.statusShort ∈ FINISHED)

/-- Deduplicate fixtures by `fixture.id` via a JavaScript `Map`: later
entries overwrite earlier ones, keys keep first-insertion order. -/
def dedupByFixtureId (l : List Fixture) : List Fixture :=
  (l.foldl (fun m fx => setAssoc m fx.id fx) []).map (·.2)

/-- `getLeagueFinishedFixturesAcrossSeasons`: fetch season and season-1,
keep finished fixtures, merge, dedup by fixture id, sort newest first. -/
def getLeagueFinishedFixturesAcrossSeasons (env : Env) (leagueId season : Nat) : List Fixture :=
  sortByDateDesc (dedupByFixtureId
    (fetchSeasonFinished env leagueId season ++ fetchSeasonFinished env leagueId (season - 1)))

/-- `getTeamFinishedFixturesNoSeason`: the per-team fallback query; `[]`
on fetch failure, otherwise the finished fixtures capped at 7. -/
def getTeamFinishedFixturesNoSeason (env : Env) (teamId : Nat) : List Fixture :=
  match env.teamLastFixtures teamId with
  | none => []
  | some l => (l.filter (fun fx => fx.statusShort ∈ FINISHED)).take 7

/-- `getCornersTotal`: `null` on fetch failure and on an ok-but-empty
statistics response; otherwise each side's `"Corner Kicks"` value
(`?.value ?? null` through `statNumber`) combined by `sumNumbers`. -/
def getCornersTotal (resp : Option (List StatRow)) : Option Int :=
  match resp with
  | none => none
  | some rows =>
    if rows.isEmpty then none
    else
      sumNumbers (rows.map (fun row =>
        statNumber (((row.statistics.find? (fun s => s.1 = "Corner Kicks")).map (·.2)).getD .null)))

/-- `getCardsTotal`: `null` on fetch failure; `0` on an ok-but-empty
events response; otherwise yellow plus red cards counted over the
`"Card"` events by substring of the lowercased detail. -/
def getCardsTotal (resp : Option (List CardEvent)) : Option Int :=
  match resp with
  | none => none
  | some events =>
    if events.isEmpty then some 0
    else
      let cards := events.filter (fun e => e.type = "Card")
      let yellow := (cards.filter (fun e => strIncludes (e.detail.map charLower) "yellow")).length
      let red := (cards.filter (fun e => strIncludes (e.detail.map charLower) "red")).length
      some ((yellow : Int) + red)

/-- `retryNullable`: re-invoke until a non-`null` value or the attempt
budget runs out.  The thunk is pure here, so every attempt sees the same
environment response. -/
def retryNullable {α : Type} (fn : Unit → Option α) : Nat → Option α
  | 0 => none
  | tries + 1 =>
    match fn () with
    | some v => some v
    | none => retryNullable fn tries

/-! ### Alias resolution and team matching -/

/-- The `add` helper of `buildFixtureAliasIndex`: skip empty normalized
names, otherwise add the id to the name's set (append-if-new; `Map.set`
keeps the key's position). -/
def addAlias (idx : List (String × List Nat)) (name : String) (id : Nat) :
    List (String × List Nat) :=
  let n := normName name
  if n = "" then idx
  else
    match idx.find? (fun p => p.1 = n) with
    | some p => setAssoc idx n (insertUniq p.2 id)
    | none => idx ++ [(n, [id])]

/-- `buildFixtureAliasIndex`: normalized participant name to the set of
ids observed for it across the league's fixtures. -/
def buildFixtureAliasIndex (leagueFixtures : List Fixture) : List (String × List Nat) :=
  leagueFixtures.foldl
    (fun idx fx => addAlias (addAlias idx fx.home.name fx.home.id) fx.away.name fx.away.id) []

/-- The fuzzy scan of `resolveEffectiveIds`: walk the index in insertion
order and absorb the first entry whose name matches, then stop. -/
def fuzzyScan (ids : List Nat) (teamNameNorm : String) :
    List (String × List Nat) → List Nat
  | [] => ids
  | (fxNameNorm, idSet) :: rest =>
    if nameMatches teamNameNorm fxNameNorm then idSet.foldl insertUniq ids
    else fuzzyScan ids teamNameNorm rest

/-- `resolveEffectiveIds`: the team's own id plus fixture-derived aliases,
preferring an exact normalized-name hit with a non-empty set, otherwise
the first fuzzy hit. -/
def resolveEffectiveIds (team : TeamInfo) (aliasIndex : List (String × List Nat)) : List Nat :=
  let ids := [team.teamId]
  let teamNameNorm := normName team.name
  match aliasIndex.find? (fun p => p.1 = teamNameNorm) with
  | some p =>
    if 0 < p.2.length then p.2.foldl insertUniq ids
    else fuzzyScan ids teamNameNorm aliasIndex
  | none => fuzzyScan ids teamNameNorm aliasIndex

/-- `teamInFixture`: membership by effective id, or by fuzzy name as the
fallback. -/
def teamInFixture (team : TeamInfo) (effectiveIds : List Nat) (fx : Fixture) : Bool :=
  effectiveIds.contains fx.home.id || effectiveIds.contains fx.away.id ||
    nameMatches team.name fx.home.name || nameMatches team.name fx.away.name

/-- `computeIsHome`: id match preferred, name match as fallback, `true`
when neither side identifies the team. -/
def computeIsHome (team : TeamInfo) (effectiveIds : List Nat) (fx : Fixture) : Bool :=
  if effectiveIds.contains fx.home.id then true
  else if effectiveIds.contains fx.away.id then false
  else if nameMatches team.name fx.home.name then true
  else if nameMatches team.name fx.away.name then false
  else true

/-! ### Board assembly (`getLeagueBoards`) -/

/-- The per-team selection result `{ team, effectiveIds, fixtures }`. -/
structure PerTeam where
  team : TeamInfo
  effectiveIds : List Nat
  fixtures : List Fixture
deriving DecidableEq, Repr

/-- The per-team fallback: no-season fetches for every effective id,
merged, deduped by fixture id, sorted newest first, capped at 7. -/
def teamFallbackFixtures (env : Env) (ids : List Nat) : List Fixture :=
  (sortByDateDesc (dedupByFixtureId
    (ids.foldr (fun id acc => getTeamFinishedFixturesNoSeason env id ++ acc) []))).take 7

/-- The per-team fixture selection of `getLeagueBoards`: last 7 from the
league list; on zero matches, force-swap to the fixture id found by name
and retry; if still empty, the per-team no-season fallback with the
original ids. -/
def selectTeamFixtures (env : Env) (leagueFinished : List Fixture) (t : TeamInfo)
    (ids : List Nat) : PerTeam :=
  let fromLeague := (leagueFinished.filter (fun fx => teamInFixture t ids fx)).take 7
  if fromLeague.isEmpty then
    let tNorm := normName t.name
    let hit := leagueFinished.find? (fun fx =>
      nameMatches tNorm fx.home.name || nameMatches tNorm fx.away.name)
    match hit with
    | some hitFx =>
      let swappedId := if nameMatches tNorm hitFx.home.name then hitFx.home.id else hitFx.away.id
      let swappedIds := insertUniq [t.teamId] swappedId
      let fromLeague2 := (leagueFinished.filter (fun fx => teamInFixture t swappedIds fx)).take 7
      if fromLeague2.isEmpty then ⟨t, ids, teamFallbackFixtures env ids⟩
      else ⟨t, swappedIds, fromLeague2⟩
    | none => ⟨t, ids, teamFallbackFixtures env ids⟩
  else ⟨t, ids, fromLeague⟩

/-- The `teamEffectiveIds` map, built keyed by `teamId` before the
per-team selection. -/
def teamEffectiveIdsMap (teams : List TeamInfo) (aliasIndex : List (String × List Nat)) :
    List (Nat × List Nat) :=
  teams.foldl (fun m t => setAssoc m t.teamId (resolveEffectiveIds t aliasIndex)) []

/-- The per-team fixture selections of one league, in roster order. -/
def leaguePerTeam (env : Env) (leagueId season : Nat) (teams : List TeamInfo) : List PerTeam :=
  let leagueFinished := getLeagueFinishedFixturesAcrossSeasons env leagueId season
  let aliasIndex := buildFixtureAliasIndex leagueFinished
  let effMap := teamEffectiveIdsMap teams aliasIndex
  teams.map (fun t =>
    selectTeamFixtures env leagueFinished t ((lookupAssoc effMap t.teamId).getD [t.teamId]))

/-- The deduplicated fixture-id set handed to the stat/event fetch phase:
every displayed fixture id, first occurrence kept (JavaScript `Set`
insertion order).  These are exactly the fixture arguments of the
`/fixtures/statistics` and `/fixtures/events` calls `getLeagueBoards`
issues for the league. -/
def statRequests (perTeam : List PerTeam) : List Nat :=
  ((perTeam.map (fun pt => pt.fixtures.map (·.id))).flatten).foldl insertUniq []

/-- The per-fixture stat results (corners, cards), each wrapped in the
3-attempt `retryNullable`.  In the source the results are stored in the
`fixtureData` map keyed by the ids of `statRequests`; every displayed
fixture id is in that set, so the map lookup at assembly time returns
exactly this value and the `?? \x7b cornersTotal: null, cardsTotal: null \x7d`
default is never taken. -/
def fixtureStats (env : Env) (fixtureId : Nat) : Option Int × Option Int :=
  (retryNullable (fun _ => getCornersTotal (env.statsResp fixtureId)) 3,
   retryNullable (fun _ => getCardsTotal (env.eventsResp fixtureId)) 3)

/-- The real `MatchCard` built for one selected fixture. -/
def realCard (team : TeamInfo) (effectiveIds : List Nat)
    (fstats : Nat → Option Int × Option Int) (fx : Fixture) : MatchCard :=
  let isHome := computeIsHome team effectiveIds fx
  { fixtureId := fx.id,
    date := fx.date,
    opponent := if isHome then fx.away.name else fx.home.name,
    isHome := isHome,
    goalsTotal := some (fx.goalsHome.getD 0 + fx.goalsAway.getD 0),
    cornersTotal := (fstats fx.id).1,
    cardsTotal := (fstats fx.id).2 }

/-- One assembled `TeamBoard`: real cards capped at 7, then blank-padded
to exactly 7 (`while (matches.length < 7) matches.push(blankMatch())`). -/
def buildTeamBoard (pt : PerTeam) (fstats : Nat → Option Int × Option Int) : TeamBoard :=
  let real := (pt.fixtures.map (realCard pt.team pt.effectiveIds fstats)).take 7
  { teamId := pt.team.teamId, name := pt.team.name, logo := pt.team.logo,
    «matches» := real ++ List.replicate (7 - real.length) blankMatch }

/-- The resolved season as the `if (!season)` guard sees it: `none` when
the season fetch failed, the list was empty, or the year is 0 (falsy). -/
def resolvedSeason (env : Env) (cfg : LeagueConfig) : Option Nat :=
  match getCurrentSeason (env.leagueSeasons cfg.leagueId) with
  | none => none
  | some y => if y = 0 then none else some y

/-- Whether season or roster resolution fails for the league
(`!season`, then `!teams || teams.length === 0`). -/
def resolutionFails (env : Env) (cfg : LeagueConfig) : Bool :=
  match resolvedSeason env cfg with
  | none => true
  | some season =>
    match getTeamsForLeague env cfg.leagueId season with
    | none => true
    | some teams => teams.isEmpty

/-- The error message of a league whose resolution failed. -/
def failureMessage (env : Env) (cfg : LeagueConfig) : String :=
  match resolvedSeason env cfg with
  | none => "Could not resolve season."
  | some _ => "Could not load teams."

/-- The body of the per-league loop of `getLeagueBoards`. -/
def processLeague (env : Env) (cfg : LeagueConfig) : LeagueBoard :=
  match resolvedSeason env cfg with
  | none =>
    { leagueId := cfg.leagueId, leagueName := cfg.leagueName, seasonUsed := none,
      error := some "Could not resolve season.", teams := [] }
  | some season =>
    match getTeamsForLeague env cfg.leagueId season with
    | none =>
      { leagueId := cfg.leagueId, leagueName := cfg.leagueName, seasonUsed := some season,
        error := some "Could not load teams.", teams := [] }
    | some teams =>
      if teams.isEmpty then
        { leagueId := cfg.leagueId, leagueName := cfg.leagueName, seasonUsed := some season,
          error := some "Could not load teams.", teams := [] }
      else
        { leagueId := cfg.leagueId, leagueName := cfg.leagueName, seasonUsed := some season,
          error := none,
          teams := (leaguePerTeam env cfg.leagueId season teams).map
            (fun pt => buildTeamBoard pt (fixtureStats env)) }

/-- The `LEAGUES` constant. -/
def LEAGUES : List LeagueConfig :=
  [⟨262, "Liga MX"⟩, ⟨39, "Premier League"⟩, ⟨78, "Bundesliga"⟩,
   ⟨140, "La Liga"⟩, ⟨135, "Serie A"⟩]

/-- `getLeagueBoards`, parameterized by the league list (the source
iterates the `LEAGUES` constant sequentially; each iteration's result
depends only on its own league config and the upstream's responses). -/
def getLeagueBoards (env : Env) (cfgs : List LeagueConfig) : List LeagueBoard :=
  cfgs.map (processLeague env)

end LeagueData

namespace Part011

/-! ### `getCurrentSeason` of the `part_011` variant -/

/-- The `ApiResult` tag of the variant:
`{ ok: true; data: T } | { ok: false; error: string }`. -/
inductive ApiResult (α : Type) where
  | ok (data : α)
  | err (error : String)
deriving DecidableEq, Repr

/-- `seasons.map(s => s.year).sort((a, b) => b - a)[0]`: the head of the
descending numeric sort is the maximum year. -/
def maxYear : List LeagueData.SeasonEntry → Option Nat
  | [] => none
  | s :: rest =>
    match maxYear rest with
    | none => some s.year
    | some m => some (max s.year m)

/-- `getCurrentSeason` of `part_011`: the first entry flagged current,
else the maximum year, and a `"No seasons found"` error when neither
yields a truthy year.  The argument is the apiGet outcome reduced to its
`response[0].seasons` array (`.err` carries `pickError(r)`). -/
def getCurrentSeason (leagueId : Nat) (resp : ApiResult (List LeagueData.SeasonEntry)) :
    ApiResult Nat :=
  match resp with
  | .err e => .err e
  | .ok seasons =>
    let current := (seasons.find? (fun s => s.current)).map (fun s => s.year)
    let year :=
      match current with
      | some y => some y
      | none => maxYear seasons
    match year with
    | some y => if y = 0 then .err ("No seasons found for league " ++ toString leagueId) else .ok y
    | none => .err ("No seasons found for league " ++ toString leagueId)

end Part011

namespace ApiFootball

/-! ### `apiFootball` of `src/lib/apifootball.ts`

This helper throws: a missing key raises immediately, a non-ok status
raises with the status and truncated body, and a `fetch` rejection
propagates.  `Except.error` models a thrown `Error`; `Except.ok` is the
parsed JSON of an ok response. -/

/-- `apiFootball`, as a function of the configured key and the outcome of
the single underlying `fetch` call (no retry exists in this client). -/
def apiFootball {α : Type} (key : Option String) (ev : LeagueData.HttpEvent α) :
    Except String α :=
  match key with
  | none =>
    .error ("Missing APISPORTS_KEY env var. " ++
      "Add it in Vercel Project → Settings → Environment Variables.")
  | some _ =>
    match ev with
    | .netErr m => .error m
    | .resp status body _ d =>
      if 200 ≤ status ∧ status ≤ 299 then .ok d
      else .error ("API-Football error " ++ toString status ++ ": " ++ body.take 200)

end ApiFootball

namespace BuildBoards

/-! ### `buildAllBoards` of `src/lib/buildBoards.ts`

The cron refresh route's board builder.  Its `apiFootball` calls for
teams and fixtures are assumed successful here (a thrown error would
abort the whole build); the per-fixture statistics/events calls carry
`.catch(() => [])`, so their outcome is always a list and the environment
delivers it directly. -/

open LeagueData (MatchCard TeamBoard TeamInfo Fixture StatRow CardEvent
  sortByDateDesc blankMatch)

/-- One league entry of the hardcoded `leagues` list. -/
structure BBLeague where
  leagueId : Nat
  leagueName : String
  season : Nat
deriving DecidableEq, Repr

/-- The hardcoded league list of `buildAllBoards`. -/
def BB_LEAGUES : List BBLeague :=
  [⟨39, "Premier League", 2025⟩, ⟨140, "La Liga", 2025⟩, ⟨135, "Serie A", 2025⟩,
   ⟨78, "Bundesliga", 2025⟩, ⟨262, "Liga MX", 2025⟩]

/-- The output unit of `buildAllBoards` (its `LeagueBoard` type: no error
field, season always present). -/
structure BBLeagueBoard where
  leagueId : Nat
  leagueName : String
  seasonUsed : Nat
  teams : List TeamBoard
deriving DecidableEq, Repr

/-- The upstream responses consumed by `buildAllBoards`. -/
structure BBEnv where
  teamsResp : Nat → Nat → List TeamInfo
  fixturesResp : Nat → Nat → List Fixture
  statsResp : Nat → List StatRow
  eventsResp : Nat → List CardEvent

/-- `isFinished`. -/
def isFinished (short : String) : Bool :=
  short ∈ (["FT", "AET", "PEN"] : List String)

/-- `toNum`: number kept as is, non-blank numeric string parsed,
otherwise `null`. -/
def toNum : JsNum → Option Int
  | .num n => some n
  | .str s => if s.trim = "" then none else s.trim.toInt?
  | .null => none

/-- `cornersTotalFromStats`: collect each side's parsed `"Corner Kicks"`
value, `null` when no side had one, else the sum. -/
def cornersTotalFromStats (stats : List StatRow) : Option Int :=
  let vals := (stats.map (fun side =>
    toNum (((side.statistics.find? (fun x => x.1 = "Corner Kicks")).map (·.2)).getD .null))).reduceOption
  if vals.isEmpty then none else some (vals.foldl (· + ·) 0)

/-- `cardsTotalFromEvents`: the events call carries `type=Card`, so every
returned item is one card. -/
def cardsTotalFromEvents (events : List CardEvent) : Option Int :=
  some (events.length : Int)

/-- The finished fixtures of one league in `buildAllBoards`, sorted
newest first (`a.fixture.date < b.fixture.date ? 1 : -1`). -/
def bbFinished (env : BBEnv) (l : BBLeague) : List Fixture :=
  sortByDateDesc ((env.fixturesResp l.leagueId l.season).filter (fun f => isFinished f.statusShort))

/-- The team's last-7 selection: id-only membership, capped at 7.  No
padding is applied afterwards. -/
def bbLast7 (env : BBEnv) (l : BBLeague) (teamId : Nat) : List Fixture :=
  ((bbFinished env l).filter (fun f => f.home.id = teamId || f.away.id = teamId)).take 7

/-- One `MatchCard` of `buildAllBoards`: stats and card events fetched
per slot. -/
def bbCard (env : BBEnv) (teamId : Nat) (fx : Fixture) : MatchCard :=
  let isHome := fx.home.id = teamId
  { fixtureId := fx.id,
    date := fx.date,
    opponent := if isHome then fx.away.name else fx.home.name,
    isHome := isHome,
    goalsTotal := some (fx.goalsHome.getD 0 + fx.goalsAway.getD 0),
    cornersTotal := cornersTotalFromStats (env.statsResp fx.id),
    cardsTotal := cardsTotalFromEvents (env.eventsResp fx.id) }

/-- One team row of `buildAllBoards`: the mapped last-7 list, as many
entries as real fixtures were found. -/
def bbTeamBoard (env : BBEnv) (l : BBLeague) (t : TeamInfo) : TeamBoard :=
  { teamId := t.teamId, name := t.name, logo := t.logo,
    «matches» := (bbLast7 env l t.teamId).map (bbCard env t.teamId) }

/-- The fixture arguments of the `/fixtures/statistics` (and
`/fixtures/events`) calls `buildAllBoards` issues for one league, in
order: one call per team per selected fixture, with no deduplication
across teams. -/
def bbStatRequests (env : BBEnv) (l : BBLeague) : List Nat :=
  (((env.teamsResp l.leagueId l.season).map
    (fun t => (bbLast7 env l t.teamId).map (·.id))).flatten)

/-- `buildAllBoards`, parameterized by the league list it iterates. -/
def buildAllBoards (env : BBEnv) (leagues : List BBLeague) : List BBLeagueBoard :=
  leagues.map (fun l =>
    { leagueId := l.leagueId, leagueName := l.leagueName, seasonUsed := l.season,
      teams := (env.teamsResp l.leagueId l.season).map (bbTeamBoard env l) })

end BuildBoards

/-! ### Concrete check data

Small explicit environments on which the theorems below are instantiated. -/

namespace Checks

open LeagueData

/-- A finished fixture of league 1: Alpha (10) at home to Beta (11). -/
def fxA1 : Fixture :=
  { id := 201, date := "2025-05-02", statusShort := "FT",
    home := ⟨10, "Alpha"⟩, away := ⟨11, "Beta"⟩, goalsHome := some 1, goalsAway := some 0 }

/-- A second finished fixture of league 1, older, Alpha away. -/
def fxA2 : Fixture :=
  { id := 202, date := "2025-04-20", statusShort := "FT",
    home := ⟨11, "Beta"⟩, away := ⟨10, "Alpha"⟩, goalsHome := some 2, goalsAway := some 2 }

/-- A finished fixture of league 3: Gamma (30) at home to Delta (31). -/
def fxG1 : Fixture :=
  { id := 301, date := "2025-05-01", statusShort := "AET",
    home := ⟨30, "Gamma"⟩, away := ⟨31, "Delta"⟩, goalsHome := some 0, goalsAway := some 0 }

/-- Three leagues; league 2's season metadata is empty (season resolution
fails), leagues 1 and 3 resolve fully.  The statistics endpoint returns
ok-but-empty rows and the events endpoint fails, so every displayed
fixture's corner and card totals are unavailable. -/
def envA : Env :=
  { leagueSeasons := fun lid => if lid = 2 then some [] else some [⟨2025, true⟩],
    leagueTeams := fun lid _ =>
      if lid = 1 then some [⟨10, "Alpha", ""⟩] else if lid = 3 then some [⟨30, "Gamma", ""⟩]
      else none,
    leagueFixtures := fun lid s =>
      if lid = 1 ∧ s = 2025 then some [fxA1, fxA2]
      else if lid = 3 ∧ s = 2025 then some [fxG1]
      else some [],
    teamLastFixtures := fun _ => some [],
    statsResp := fun _ => some [],
    eventsResp := fun _ => none }

/-- The three league configs used with `envA`. -/
def cfgsA : List LeagueConfig := [⟨1, "L1"⟩, ⟨2, "L2"⟩, ⟨3, "L3"⟩]

/-- Upstream that returns 429 on the first two attempts, then succeeds. -/
def resp429Twice : Nat → HttpEvent Nat := fun a =>
  if a ≤ 2 then .resp 429 "" "Too Many Requests" 0 else .resp 200 "" "OK" 42

/-- Upstream that returns 429 on every attempt. -/
def respAll429 : Nat → HttpEvent Nat := fun _ => .resp 429 "" "Too Many Requests" 0

/-- Upstream that returns a 404 immediately. -/
def resp404 : Nat → HttpEvent Nat := fun _ => .resp 404 "not found" "Not Found" 0

/-- The roster entry of the name-reconciliation scenario. -/
def americaTeam : TeamInfo := ⟨1000, "Club América", ""⟩

/-- A fixture listing the same club as participant "America" under the
different numeric id 2000. -/
def americaFx : Fixture :=
  { id := 500, date := "2025-04-01", statusShort := "FT",
    home := ⟨2000, "America"⟩, away := ⟨3000, "Cruz Azul"⟩,
    goalsHome := some 1, goalsAway := some 1 }

/-- A statistics response reporting "Corner Kicks" for only one side. -/
def oneSidedStats : List StatRow :=
  [⟨[("Corner Kicks", JsNum.num 5)]⟩, ⟨[("Ball Possession", JsNum.str "60")]⟩]

/-- Season metadata with no entry flagged current and the maximum year
appearing after a smaller one. -/
def seasonsNoCurrent : List SeasonEntry := [⟨2020, false⟩, ⟨2024, false⟩]

/-- Fixtures of league 7, season 2025: two finished, one not started. -/
def fxS1 : Fixture :=
  { id := 1, date := "2025-02-01", statusShort := "FT",
    home := ⟨40, "Quad"⟩, away := ⟨41, "Quint"⟩, goalsHome := some 1, goalsAway := some 1 }

/-- A not-yet-started fixture (excluded from every selection). -/
def fxS2 : Fixture :=
  { id := 2, date := "2025-02-05", statusShort := "NS",
    home := ⟨40, "Quad"⟩, away := ⟨41, "Quint"⟩, goalsHome := none, goalsAway := none }

/-- A finished extra-time fixture of season 2025. -/
def fxS3 : Fixture :=
  { id := 3, date := "2025-01-15", statusShort := "AET",
    home := ⟨41, "Quint"⟩, away := ⟨40, "Quad"⟩, goalsHome := some 2, goalsAway := some 2 }

/-- Season 2024 returns fixture id 1 again (season overlap) plus a
penalties finish. -/
def fxS4 : Fixture :=
  { id := 4, date := "2024-12-01", statusShort := "PEN",
    home := ⟨40, "Quad"⟩, away := ⟨41, "Quint"⟩, goalsHome := some 0, goalsAway := some 0 }

/-- Environment exercising the two-season merge of league 7. -/
def envSeasons : Env :=
  { leagueSeasons := fun _ => some [⟨2025, true⟩],
    leagueTeams := fun _ _ => none,
    leagueFixtures := fun lid s =>
      if lid = 7 ∧ s = 2025 then some [fxS1, fxS2, fxS3]
      else if lid = 7 ∧ s = 2024 then some [fxS1, fxS4]
      else none,
    teamLastFixtures := fun _ => none,
    statsResp := fun _ => none,
    eventsResp := fun _ => none }

/-- `buildAllBoards` environment: one team with only three finished
fixtures. -/
def bbEnvShort : BuildBoards.BBEnv :=
  { teamsResp := fun _ _ => [⟨10, "A", ""⟩],
    fixturesResp := fun _ _ =>
      [{ id := 101, date := "2025-03-03", statusShort := "FT",
         home := ⟨10, "A"⟩, away := ⟨20, "B"⟩, goalsHome := some 1, goalsAway := some 0 },
       { id := 102, date := "2025-03-02", statusShort := "FT",
         home := ⟨20, "B"⟩, away := ⟨10, "A"⟩, goalsHome := some 0, goalsAway := some 0 },
       { id := 103, date := "2025-03-01", statusShort := "FT",
         home := ⟨10, "A"⟩, away := ⟨20, "B"⟩, goalsHome := some 2, goalsAway := some 1 }],
    statsResp := fun _ => [],
    eventsResp := fun _ => [] }

/-- The league config used with the `buildAllBoards` environments. -/
def bbCfg : BuildBoards.BBLeague := ⟨1, "L", 2025⟩

/-- A concrete per-team selection of league 1 under `envA`: team Alpha
with its two finished fixtures. -/
def ptA : PerTeam := ⟨⟨10, "Alpha", ""⟩, [10], [fxA1, fxA2]⟩

/-- The first board built from `envA` (league 1). -/
def boardA : LeagueBoard :=
  (getLeagueBoards envA cfgsA).headD ⟨0, "", none, none, []⟩

/-- Alpha's team row inside `boardA`. -/
def teamRowA : TeamBoard := boardA.teams.headD ⟨0, "", "", []⟩

/-- `buildAllBoards` environment: two teams sharing one fixture. -/
def bbEnvShared : BuildBoards.BBEnv :=
  { teamsResp := fun _ _ => [⟨10, "A", ""⟩, ⟨20, "B", ""⟩],
    fixturesResp := fun _ _ =>
      [{ id := 100, date := "2025-03-01", statusShort := "FT",
         home := ⟨10, "A"⟩, away := ⟨20, "B"⟩, goalsHome := some 0, goalsAway := some 0 }],
    statsResp := fun _ => [],
    eventsResp := fun _ => [] }

end Checks

/-! ### Infrastructure lemmas -/

theorem mem_insertUniq {α : Type} [DecidableEq α] {l : List α} {x y : α} :
    y ∈ insertUniq l x ↔ y ∈ l ∨ y = x := by
  unfold insertUniq
  split
  · constructor
    · exact fun h => Or.inl h
    · rintro (h | rfl) <;> assumption
  · simp [List.mem_append]

theorem nodup_insertUniq {α : Type} [DecidableEq α] {l : List α} (h : l.Nodup) (x : α) :
    (insertUniq l x).Nodup := by
  unfold insertUniq
  split
  · exact h
  · rename_i hx
    simp [List.nodup_append, h, hx]

theorem mem_foldl_insertUniq {α : Type} [DecidableEq α] :
    ∀ (l acc : List α) (x : α), x ∈ l.foldl insertUniq acc ↔ x ∈ acc ∨ x ∈ l
  | [], acc, x => by simp
  | a :: l, acc, x => by
    rw [List.foldl_cons, mem_foldl_insertUniq l, mem_insertUniq]
    constructor
    · rintro ((h | rfl) | h)
      · exact Or.inl h
      · exact Or.inr (List.mem_cons_self _ _)
      · exact Or.inr (List.mem_cons_of_mem _ h)
    · rintro (h | h)
      · exact Or.inl (Or.inl h)
      · rcases List.mem_cons.mp h with rfl | h
        · exact Or.inl (Or.inr rfl)
        · exact Or.inr h

theorem nodup_foldl_insertUniq {α : Type} [DecidableEq α] :
    ∀ (l acc : List α), acc.Nodup → (l.foldl insertUniq acc).Nodup
  | [], _, h => h
  | a :: l, acc, h => by
    rw [List.foldl_cons]
    exact nodup_foldl_insertUniq l _ (nodup_insertUniq h a)

theorem mem_setAssoc {κ β : Type} [DecidableEq κ] :
    ∀ (m : List (κ × β)) (k : κ) (v : β) (p : κ × β),
      p ∈ setAssoc m k v → p = (k, v) ∨ p ∈ m
  | [], k, v, p => by simp [setAssoc]
  | (k', v') :: rest, k, v, p => by
    unfold setAssoc
    split
    · rename_i hk
      subst hk
      intro hp
      rcases List.mem_cons.mp hp with rfl | hp
      · exact Or.inl rfl
      · exact Or.inr (List.mem_cons_of_mem _ hp)
    · intro hp
      rcases List.mem_cons.mp hp with rfl | hp
      · exact Or.inr (List.mem_cons_self _ _)
      · rcases mem_setAssoc rest k v p hp with h | h
        · exact Or.inl h
        · exact Or.inr (List.mem_cons_of_mem _ h)

theorem keys_setAssoc_sub {κ β : Type} [DecidableEq κ] :
    ∀ (m : List (κ × β)) (k : κ) (v : β) (a : κ),
      a ∈ (setAssoc m k v).map Prod.fst → a = k ∨ a ∈ m.map Prod.fst := by
  intro m k v a ha
  rcases List.mem_map.mp ha with ⟨p, hp, rfl⟩
  rcases mem_setAssoc m k v p hp with rfl | hp
  · exact Or.inl rfl
  · exact Or.inr (List.mem_map_of_mem _ hp)

theorem keys_setAssoc_super {κ β : Type} [DecidableEq κ] :
    ∀ (m : List (κ × β)) (k : κ) (v : β) (a : κ),
      a ∈ m.map Prod.fst → a ∈ (setAssoc m k v).map Prod.fst
  | [], _, _, _ => by simp
  | (k', v') :: rest, k, v, a => by
    unfold setAssoc
    intro ha
    split
    · rename_i hk
      subst hk
      simpa using ha
    · rcases List.mem_map.mp ha with ⟨p, hp, rfl⟩
      rcases List.mem_cons.mp hp with rfl | hp
      · simp
      · have := keys_setAssoc_super rest k v p.1 (List.mem_map_of_mem _ hp)
        simpa using Or.inr this

theorem self_mem_keys_setAssoc {κ β : Type} [DecidableEq κ] :
    ∀ (m : List (κ × β)) (k : κ) (v : β), k ∈ (setAssoc m k v).map Prod.fst
  | [], k, v => by simp [setAssoc]
  | (k', v') :: rest, k, v => by
    unfold setAssoc
    split
    · rename_i hk
      subst hk
      simp
    · simpa using Or.inr (self_mem_keys_setAssoc rest k v)

theorem nodup_keys_setAssoc {κ β : Type} [DecidableEq κ] :
    ∀ (m : List (κ × β)) (k : κ) (v : β),
      (m.map Prod.fst).Nodup → ((setAssoc m k v).map Prod.fst).Nodup
  | [], k, v, _ => by simp [setAssoc]
  | (k', v') :: rest, k, v, h => by
    unfold setAssoc
    rw [List.map_cons, List.nodup_cons] at h
    split
    · rename_i hk
      subst hk
      simpa [List.nodup_cons] using h
    · rename_i hk
      rw [List.map_cons, List.nodup_cons]
      refine ⟨fun hmem => ?_, nodup_keys_setAssoc rest k v h.2⟩
      rcases keys_setAssoc_sub rest k v k' hmem with rfl | hmem
      · exact hk rfl
      · exact h.1 hmem

namespace LeagueData

/-! ### Lemmas on the fixture-id dedup fold -/

theorem fixFold_pair_id :
    ∀ (l : List Fixture) (m : List (Nat × Fixture)),
      (∀ p ∈ m, (p.2).id = p.1) →
      ∀ p ∈ l.foldl (fun m fx => setAssoc m fx.id fx) m, (p.2).id = p.1
  | [], _, hm => hm
  | fx :: l, m, hm => by
    rw [List.foldl_cons]
    refine fixFold_pair_id l _ ?_
    intro p hp
    rcases mem_setAssoc m fx.id fx p hp with rfl | hp
    · rfl
    · exact hm p hp

theorem fixFold_keys_nodup :
    ∀ (l : List Fixture) (m : List (Nat × Fixture)),
      (m.map Prod.fst).Nodup →
      ((l.foldl (fun m fx => setAssoc m fx.id fx) m).map Prod.fst).Nodup
  | [], _, hm => hm
  | fx :: l, m, hm => by
    rw [List.foldl_cons]
    exact fixFold_keys_nodup l _ (nodup_keys_setAssoc m fx.id fx hm)

theorem fixFold_val_mem :
    ∀ (l : List Fixture) (m : List (Nat × Fixture)) (p : Nat × Fixture),
      p ∈ l.foldl (fun m fx => setAssoc m fx.id fx) m → p ∈ m ∨ p.2 ∈ l
  | [], _, p, hp => Or.inl hp
  | fx :: l, m, p, hp => by
    rw [List.foldl_cons] at hp
    rcases fixFold_val_mem l _ p hp with hp | hp
    · rcases mem_setAssoc m fx.id fx p hp with rfl | hp
      · exact Or.inr (List.mem_cons_self _ _)
      · exact Or.inl hp
    · exact Or.inr (List.mem_cons_of_mem _ hp)

theorem fixFold_keys_mono :
    ∀ (l : List Fixture) (m : List (Nat × Fixture)) (a : Nat),
      a ∈ m.map Prod.fst →
      a ∈ (l.foldl (fun m fx => setAssoc m fx.id fx) m).map Prod.fst
  | [], _, _, ha => ha
  | fx :: l, m, a, ha => by
    rw [List.foldl_cons]
    exact fixFold_keys_mono l _ a (keys_setAssoc_super m fx.id fx a ha)

theorem fixFold_covers :
    ∀ (l : List Fixture) (m : List (Nat × Fixture)) (fx : Fixture), fx ∈ l →
      fx.id ∈ (l.foldl (fun m fx => setAssoc m fx.id fx) m).map Prod.fst := by
  intro l
  induction l with
  | nil => intro m fx h; cases h
  | cons a l ih =>
    intro m fx h
    rw [List.foldl_cons]
    rcases List.mem_cons.mp h with rfl | h
    · exact fixFold_keys_mono l _ fx.id (self_mem_keys_setAssoc m fx.id fx)
    · exact ih _ fx h

/-- The values of the dedup map have pairwise distinct fixture ids. -/
theorem dedupByFixtureId_nodup_ids (l : List Fixture) :
    ((dedupByFixtureId l).map (·.id)).Nodup := by
  unfold dedupByFixtureId
  have hpair := fixFold_pair_id l [] (by intro p hp; cases hp)
  have hkeys := fixFold_keys_nodup l [] (by simp)
  rw [List.map_map]
  have heq :
      (l.foldl (fun m fx => setAssoc m fx.id fx) []).map ((fun fx => fx.id) ∘ Prod.snd) =
      (l.foldl (fun m fx => setAssoc m fx.id fx) []).map Prod.fst :=
    List.map_congr_left (fun p hp => hpair p hp)
  rw [heq]
  exact hkeys

/-- Every dedup survivor comes from the input list. -/
theorem mem_dedupByFixtureId {l : List Fixture} {fx : Fixture} :
    fx ∈ dedupByFixtureId l → fx ∈ l := by
  unfold dedupByFixtureId
  intro h
  rcases List.mem_map.mp h with ⟨p, hp, rfl⟩
  rcases fixFold_val_mem l [] p hp with hp | hp
  · cases hp
  · exact hp

/-- Every input fixture's id survives the dedup. -/
theorem dedupByFixtureId_covers {l : List Fixture} {fx : Fixture} (h : fx ∈ l) :
    fx.id ∈ (dedupByFixtureId l).map (·.id) := by
  unfold dedupByFixtureId
  have hpair := fixFold_pair_id l [] (by intro p hp; cases hp)
  rw [List.map_map]
  have heq :
      (l.foldl (fun m fx => setAssoc m fx.id fx) []).map ((fun fx => fx.id) ∘ Prod.snd) =
      (l.foldl (fun m fx => setAssoc m fx.id fx) []).map Prod.fst :=
    List.map_congr_left (fun p hp => hpair p hp)
  rw [heq]
  exact fixFold_covers l [] fx h

end LeagueData

/-! ### Order lemmas for the date comparator -/

theorem charsLt_asymm :
    ∀ (as bs : List Char), charsLt as bs = true → charsLt bs as = false
  | [], [] => by simp [charsLt]
  | [], _ :: _ => by intro _; simp [charsLt]
  | _ :: _, [] => by simp [charsLt]
  | a :: as, b :: bs => by
    intro h
    unfold charsLt at h ⊢
    split at h
    · rename_i hab
      rw [if_neg (by omega), if_pos hab]
    · rename_i hab
      split at h
      · exact absurd h (by simp)
      · rename_i hba
        rw [if_neg hba, if_neg hab]
        exact charsLt_asymm as bs h

theorem charsLt_negTrans :
    ∀ (as bs cs : List Char),
      charsLt as bs = false → charsLt bs cs = false → charsLt as cs = false
  | [], [], cs => by intro _ h2; exact h2
  | [], _ :: _, _ => by intro h1 _; exact absurd h1 (by simp [charsLt])
  | _ :: _, [], [] => by intro _ _; simp [charsLt]
  | _ :: _, [], _ :: _ => by intro _ h2; exact absurd h2 (by simp [charsLt])
  | _ :: _, _ :: _, [] => by intro _ _; simp [charsLt]
  | a :: as, b :: bs, c :: cs => by
    intro h1 h2
    unfold charsLt at h1 h2 ⊢
    split at h1
    · exact absurd h1 (by simp)
    · rename_i hab
      split at h2
      · exact absurd h2 (by simp)
      · rename_i hbc
        split at h1 <;> split at h2 <;> rename_i hba hcb
        · rw [if_neg (by omega), if_pos (by omega)]
        · rw [if_neg (by omega), if_pos (by omega)]
        · rw [if_neg (by omega), if_pos (by omega)]
        · have hac : ¬ a.toNat < c.toNat := by omega
          have hca : ¬ c.toNat < a.toNat := by omega
          rw [if_neg hac, if_neg hca]
          exact charsLt_negTrans as bs cs h1 h2

namespace LeagueData

instance : IsTotal Fixture dateGe where
  total a b := by
    unfold dateGe strLt
    rcases h : charsLt a.date.data b.date.data with hf | ht
    · exact Or.inl rfl
    · exact Or.inr (charsLt_asymm _ _ h)

instance : IsTrans Fixture dateGe where
  trans a b c hab hbc := charsLt_negTrans _ _ _ hab hbc

/-- `sortByDateDesc` output is pairwise descending by date. -/
theorem sortByDateDesc_sorted (l : List Fixture) :
    (sortByDateDesc l).Pairwise dateGe :=
  List.sorted_insertionSort dateGe l

/-- `sortByDateDesc` permutes its input. -/
theorem sortByDateDesc_perm (l : List Fixture) :
    (sortByDateDesc l).Perm l :=
  List.perm_insertionSort dateGe l

/-- A constant `null` thunk exhausts every `retryNullable` budget. -/
theorem retryNullable_none {α : Type} :
    ∀ t : Nat, retryNullable (fun _ => (none : Option α)) t = none
  | 0 => rfl
  | t + 1 => by
    unfold retryNullable
    exact retryNullable_none t

end LeagueData

/-- `maxYear` is the maximum year present in the seasons list. -/
theorem maxYear_spec :
    ∀ (l : List LeagueData.SeasonEntry) (m : Nat), Part011.maxYear l = some m →
      (∀ e ∈ l, e.year ≤ m) ∧ m ∈ l.map (fun e => e.year)
  | [], m => by intro h; cases h
  | s :: rest, m => by
    intro h
    unfold Part011.maxYear at h
    rcases hr : Part011.maxYear rest with _ | m'
    · rw [hr] at h
      cases rest with
      | nil =>
        cases h
        constructor
        · intro e he
          rcases List.mem_singleton.mp he with rfl
          exact Nat.le_refl _
        · simp
      | cons b bs =>
        exact absurd hr (by unfold Part011.maxYear; rcases Part011.maxYear bs with _ | _ <;> simp)
    · rw [hr] at h
      cases h
      obtain ⟨hle, hmem⟩ := maxYear_spec rest m' hr
      constructor
      · intro e he
        rcases List.mem_cons.mp he with rfl | he
        · exact Nat.le_max_left _ _
        · exact Nat.le_trans (hle e he) (Nat.le_max_right _ _)
      · rcases max_choice s.year m' with hmax | hmax <;> rw [hmax]
        · simp
        · simpa using Or.inr hmem

/-! ### Claim C10 -/

/-- C10: `sumNumbers` returns `null` exactly when every entry is `null`
and otherwise sums with `null` counted as 0; consequently a statistics
response reporting "Corner Kicks" for only one side yields that side's
value as the combined corner total. -/
theorem C10_one_sided_stats_summed :
    (∀ vs : List (Option Int),
      LeagueData.sumNumbers vs =
        if vs.all (fun v => v = none) then none
        else some (vs.foldl (fun acc v => acc + v.getD 0) 0)) ∧
    LeagueData.getCornersTotal (some Checks.oneSidedStats) = some 5 := by
  constructor
  · intro vs
    unfold LeagueData.sumNumbers
    by_cases h : vs.all (fun v => v = none)
    · rw [if_pos h, if_neg]
      simp only [List.all_eq_true, decide_eq_true_eq] at h
      simp only [List.any_eq_true, decide_eq_true_eq, not_exists, not_and]
      intro x hx
      simp [h x hx]
    · rw [if_neg h, if_pos]
      simp only [List.all_eq_true, decide_eq_true_eq, not_forall] at h
      obtain ⟨x, hx, hxn⟩ := h
      simp only [List.any_eq_true, decide_eq_true_eq]
      exact ⟨x, hx, hxn⟩
  · decide

/-! ### Claim C5 -/

/-- C5 counterexample: on season metadata listing years 2020 then 2024
with no entry flagged current, `getCurrentSeason` of `leagueData.ts`
returns the first listed year 2020, not the maximum year 2024 claimed. -/
theorem C5_counterexample :
    LeagueData.getCurrentSeason (some Checks.seasonsNoCurrent) = some 2020 ∧
    Part011.maxYear Checks.seasonsNoCurrent = some 2024 ∧ (2020 : Nat) ≠ 2024 :=
  ⟨by decide, by decide, by decide⟩

/-- C5 amended: the `part_011` variant resolves the season exactly as
claimed (current-flagged entry first, else the maximum year, and a
"No seasons found" error on an empty list), while `getCurrentSeason` of
`leagueData.ts` prefers the current-flagged entry but falls back to the
first listed entry's year (not the maximum) and yields `null` (no
season) on an empty list. -/
theorem C5_season_resolution :
    (∀ (seasons : List LeagueData.SeasonEntry) (e : LeagueData.SeasonEntry),
       seasons.find? (fun s => s.current) = some e →
       LeagueData.getCurrentSeason (some seasons) = some e.year) ∧
    (∀ seasons : List LeagueData.SeasonEntry,
       seasons.find? (fun s => s.current) = none →
       LeagueData.getCurrentSeason (some seasons) = seasons.head?.map (fun s => s.year)) ∧
    LeagueData.getCurrentSeason none = none ∧
    LeagueData.getCurrentSeason (some []) = none ∧
    (∀ (lid : Nat) (seasons : List LeagueData.SeasonEntry) (e : LeagueData.SeasonEntry),
       seasons.find? (fun s => s.current) = some e → e.year ≠ 0 →
       Part011.getCurrentSeason lid (.ok seasons) = .ok e.year) ∧
    (∀ (lid m : Nat) (seasons : List LeagueData.SeasonEntry),
       seasons.find? (fun s => s.current) = none → Part011.maxYear seasons = some m → m ≠ 0 →
       Part011.getCurrentSeason lid (.ok seasons) = .ok m) ∧
    (∀ (lid m : Nat) (seasons : List LeagueData.SeasonEntry), Part011.maxYear seasons = some m →
       (∀ e ∈ seasons, e.year ≤ m) ∧ m ∈ seasons.map (fun e => e.year)) ∧
    (∀ lid : Nat, Part011.getCurrentSeason lid (.ok []) =
       .err ("No seasons found for league " ++ toString lid)) := by
  refine ⟨?_, ?_, rfl, rfl, ?_, ?_, ?_, ?_⟩
  · intro seasons e hf
    simp [LeagueData.getCurrentSeason, hf]
  · intro seasons hf
    simp [LeagueData.getCurrentSeason, hf]
  · intro lid seasons e hf hy
    simp [Part011.getCurrentSeason, hf, hy]
  · intro lid m seasons hf hm hm0
    simp [Part011.getCurrentSeason, hf, hm, hm0]
  · intro _ m seasons hm
    exact maxYear_spec seasons m hm
  · intro lid
    rfl

/-! ### Claim C6 -/

/-- C6 counterexample: an ok-but-empty events response makes
`getCardsTotal` return the number 0, not `null`, so the card total from
the events feed is not `null` whenever no data is available. -/
theorem C6_counterexample :
    LeagueData.getCardsTotal (some []) = some 0 ∧ (some 0 : Option Int) ≠ none :=
  ⟨rfl, by decide⟩

/-- C6 amended: an unavailable statistic degrades to `null` and never
removes the fixture — corners are `null` on a failed fetch and on an
ok-but-empty statistics response, cards are `null` on a failed events
fetch (an ok-but-empty events response yields 0 instead), and a
displayed fixture whose stat results are `null` still occupies its match
slot with `cornersTotal` and `cardsTotal` `null`. -/
theorem C6_stat_unavailable_degrades :
    LeagueData.getCornersTotal (some []) = none ∧
    LeagueData.getCornersTotal none = none ∧
    LeagueData.getCardsTotal none = none ∧
    (∀ (env : LeagueData.Env) (fid : Nat),
       env.statsResp fid = none ∨ env.statsResp fid = some [] →
       (LeagueData.fixtureStats env fid).1 = none) ∧
    (∀ (env : LeagueData.Env) (fid : Nat), env.eventsResp fid = none →
       (LeagueData.fixtureStats env fid).2 = none) ∧
    (∀ (pt : LeagueData.PerTeam) (fstats : Nat → Option Int × Option Int)
       (j : Nat) (fx : LeagueData.Fixture), (pt.fixtures.take 7)[j]? = some fx →
       ((LeagueData.buildTeamBoard pt fstats).«matches»)[j]? =
         some (LeagueData.realCard pt.team pt.effectiveIds fstats fx)) ∧
    (∀ (team : LeagueData.TeamInfo) (ids : List Nat)
       (fstats : Nat → Option Int × Option Int) (fx : LeagueData.Fixture),
       (LeagueData.realCard team ids fstats fx).fixtureId = fx.id ∧
       (LeagueData.realCard team ids fstats fx).cornersTotal = (fstats fx.id).1 ∧
       (LeagueData.realCard team ids fstats fx).cardsTotal = (fstats fx.id).2) := by
  refine ⟨rfl, rfl, rfl, ?_, ?_, ?_, ?_⟩
  · intro env fid h
    unfold LeagueData.fixtureStats
    rcases h with h | h <;>
      simp only [h, LeagueData.getCornersTotal, List.isEmpty_nil, if_true] <;>
      exact LeagueData.retryNullable_none 3
  · intro env fid h
    unfold LeagueData.fixtureStats
    simp only [h, LeagueData.getCardsTotal]
    exact LeagueData.retryNullable_none 3
  · intro pt fstats j fx hj
    have hmt : ((pt.fixtures.map (LeagueData.realCard pt.team pt.effectiveIds fstats)).take 7) =
        (pt.fixtures.take 7).map (LeagueData.realCard pt.team pt.effectiveIds fstats) :=
      (List.map_take ..).symm
    have hjlen : j <
        ((pt.fixtures.map (LeagueData.realCard pt.team pt.effectiveIds fstats)).take 7).length := by
      rw [hmt, List.length_map]
      rcases List.getElem?_eq_some.mp hj with ⟨hlt, _⟩
      exact hlt
    show ((pt.fixtures.map (LeagueData.realCard pt.team pt.effectiveIds fstats)).take 7 ++
        List.replicate (7 - ((pt.fixtures.map
          (LeagueData.realCard pt.team pt.effectiveIds fstats)).take 7).length)
          LeagueData.blankMatch)[j]? =
      some (LeagueData.realCard pt.team pt.effectiveIds fstats fx)
    rw [List.getElem?_append, if_pos hjlen, hmt, List.getElem?_map, hj]
    rfl
  · intro team ids fstats fx
    exact ⟨rfl, rfl, rfl⟩

/-- C5 witness: the amended season-resolution facts at concrete inputs. -/
theorem C5_witness :
    List.find? (fun s => s.current) [(⟨2025, true⟩ : LeagueData.SeasonEntry)] =
      some ⟨2025, true⟩ ∧
    LeagueData.getCurrentSeason (some [⟨2025, true⟩]) = some 2025 ∧
    List.find? (fun s => s.current) Checks.seasonsNoCurrent = none ∧
    Part011.getCurrentSeason 9 (.ok Checks.seasonsNoCurrent) = .ok 2024 :=
  ⟨by decide,
   C5_season_resolution.1 [⟨2025, true⟩] ⟨2025, true⟩ (by decide),
   by decide,
   C5_season_resolution.2.2.2.2.2.1 9 2024 Checks.seasonsNoCurrent (by decide) (by decide)
     (by decide)⟩

/-- C6 witness: under `envA` the statistics endpoint returns no rows and
the events fetch fails for fixture 201, its stat results are both `null`,
and its match slot is still present in Alpha's board. -/
theorem C6_witness :
    Checks.envA.statsResp 201 = some [] ∧
    (LeagueData.fixtureStats Checks.envA 201).1 = none ∧
    Checks.envA.eventsResp 201 = none ∧
    (LeagueData.fixtureStats Checks.envA 201).2 = none ∧
    (Checks.ptA.fixtures.take 7)[0]? = some Checks.fxA1 ∧
    ((LeagueData.buildTeamBoard Checks.ptA
        (LeagueData.fixtureStats Checks.envA)).«matches»)[0]? =
      some (LeagueData.realCard Checks.ptA.team Checks.ptA.effectiveIds
        (LeagueData.fixtureStats Checks.envA) Checks.fxA1) :=
  ⟨rfl,
   C6_stat_unavailable_degrades.2.2.2.1 Checks.envA 201 (Or.inr rfl),
   rfl,
   C6_stat_unavailable_degrades.2.2.2.2.1 Checks.envA 201 rfl,
   by decide,
   C6_stat_unavailable_degrades.2.2.2.2.2.1 Checks.ptA (LeagueData.fixtureStats Checks.envA) 0
     Checks.fxA1 (by decide)⟩

/-! ### Claim C4 -/

/-- Shifting a mapped range by one: the delay schedule of attempts
`attempt .. attempt+K` is the first delay followed by the schedule
starting at `attempt+1`. -/
theorem range_map_shift (f : Nat → Nat) (attempt K : Nat) :
    (List.range (K + 1)).map (fun i => f (attempt + i)) =
      f attempt :: (List.range K).map (fun i => f (attempt + 1 + i)) := by
  rw [List.range_succ_eq_map, List.map_cons, List.map_map]
  refine congrArg₂ _ (by rw [Nat.add_zero]) ?_
  refine List.map_congr_left ?_
  intro i _
  show f (attempt + (i + 1)) = f (attempt + 1 + i)
  congr 1
  omega

/-- `K` straight 429s followed by a 2xx response: the loop succeeds on
attempt `K+1`, having slept the doubling backoff schedule. -/
theorem apiFetchGo_429_then_ok {α : Type} (b429 c429 bn cn : Nat) (body stx bodyOK stxOK : String)
    (d429 dOK : α) (st : Nat) :
    ∀ (K attempt remaining : Nat) (resp : Nat → LeagueData.HttpEvent α), K < remaining →
      (∀ a, attempt ≤ a → a < attempt + K → resp a = .resp 429 body stx d429) →
      resp (attempt + K) = .resp st bodyOK stxOK dOK → 200 ≤ st → st ≤ 299 →
      LeagueData.apiFetchGo resp b429 c429 bn cn attempt remaining =
        (.ok dOK, (List.range K).map (fun i => LeagueData.backoffDelay b429 c429 (attempt + i)),
         K + 1)
  | 0, attempt, remaining, resp, hK, _, hOK, hlo, hhi => by
    rcases remaining with _ | rem
    · omega
    · rw [Nat.add_zero] at hOK
      unfold LeagueData.apiFetchGo
      simp only [hOK]
      rw [if_neg (show ¬ st = 429 by omega), if_pos ⟨hlo, hhi⟩]
      simp
  | K + 1, attempt, remaining, resp, hK, h429, hOK, hlo, hhi => by
    rcases remaining with _ | rem
    · omega
    · have hfirst : resp attempt = .resp 429 body stx d429 :=
        h429 attempt (Nat.le_refl _) (by omega)
      have hrest := apiFetchGo_429_then_ok b429 c429 bn cn body stx bodyOK stxOK d429 dOK st
        K (attempt + 1) rem resp (by omega)
        (fun a ha hb => h429 a (by omega) (by omega))
        (by rw [show attempt + 1 + K = attempt + (K + 1) by omega]; exact hOK) hlo hhi
      unfold LeagueData.apiFetchGo
      simp only [hfirst, eq_self_iff_true, if_true, hrest]
      rw [range_map_shift (LeagueData.backoffDelay b429 c429) attempt K]

/-- A 429 on every attempt: the loop exhausts, slept the full backoff
schedule, issued every request, and ends in the generic error result. -/
theorem apiFetchGo_all429 {α : Type} (b429 c429 bn cn : Nat) (body stx : String) (d429 : α) :
    ∀ (remaining attempt : Nat) (resp : Nat → LeagueData.HttpEvent α),
      (∀ a, attempt ≤ a → a < attempt + remaining → resp a = .resp 429 body stx d429) →
      LeagueData.apiFetchGo resp b429 c429 bn cn attempt remaining =
        (.err "Unknown error" none,
         (List.range remaining).map (fun i => LeagueData.backoffDelay b429 c429 (attempt + i)),
         remaining)
  | 0, attempt, resp, _ => by simp [LeagueData.apiFetchGo]
  | remaining + 1, attempt, resp, h429 => by
    have hfirst : resp attempt = .resp 429 body stx d429 :=
      h429 attempt (Nat.le_refl _) (by omega)
    have hrest := apiFetchGo_all429 b429 c429 bn cn body stx d429 remaining (attempt + 1) resp
      (fun a ha hb => h429 a (by omega) (by omega))
    unfold LeagueData.apiFetchGo
    simp only [hfirst, eq_self_iff_true, if_true, hrest]
    rw [range_map_shift (LeagueData.backoffDelay b429 c429) attempt remaining]

/-- The backoff schedule is monotone in the attempt number. -/
theorem backoffDelay_mono (b c : Nat) {i j : Nat} (h : i ≤ j) :
    LeagueData.backoffDelay b c i ≤ LeagueData.backoffDelay b c j := by
  unfold LeagueData.backoffDelay
  exact min_le_min (Nat.le_refl _)
    (Nat.mul_le_mul_left _ (Nat.pow_le_pow_right (by omega) (by omega)))

/-- The delay schedule of a 429 run is non-decreasing. -/
theorem backoff_schedule_pairwise (b c start K : Nat) :
    ((List.range K).map (fun i => LeagueData.backoffDelay b c (start + i))).Pairwise (· ≤ ·) := by
  refine List.Pairwise.map _ (fun i j hij => ?_) (List.pairwise_lt_range K)
  exact backoffDelay_mono b c (by omega)

/-- C4: when the upstream returns 429 exactly K times (K below the
7-attempt bound) and then a 2xx success, `apiFetch` succeeds after
exactly K+1 requests; each waited delay doubles from the base capped at
the maximum and the schedule is non-decreasing; when every attempt
returns 429 the client ends in the tagged error result instead of
succeeding, after all 7 requests (the result's message is the generic
"Unknown error" string of the loop's exhaustion exit). -/
theorem C4_backoff_retry :
    (∀ (α : Type) (resp : Nat → LeagueData.HttpEvent α) (K st : Nat)
       (body stx bodyOK stxOK : String) (d429 dOK : α),
       K < 7 →
       (∀ a, 1 ≤ a → a ≤ K → resp a = .resp 429 body stx d429) →
       resp (K + 1) = .resp st bodyOK stxOK dOK → 200 ≤ st → st ≤ 299 →
       LeagueData.apiFetch true resp =
         (.ok dOK,
          (List.range K).map (fun i => LeagueData.backoffDelay 1000 20000 (1 + i)), K + 1)) ∧
    (∀ start K : Nat,
       ((List.range K).map
         (fun i => LeagueData.backoffDelay 1000 20000 (start + i))).Pairwise (· ≤ ·)) ∧
    (∀ i : Nat, LeagueData.backoffDelay 1000 20000 i = min 20000 (1000 * 2 ^ (i - 1))) ∧
    (∀ (α : Type) (resp : Nat → LeagueData.HttpEvent α) (body stx : String) (d429 : α),
       (∀ a, 1 ≤ a → a ≤ 7 → resp a = .resp 429 body stx d429) →
       LeagueData.apiFetch true resp =
         (.err "Unknown error" none,
          (List.range 7).map (fun i => LeagueData.backoffDelay 1000 20000 (1 + i)), 7)) := by
  refine ⟨?_, ?_, fun i => rfl, ?_⟩
  · intro α resp K st body stx bodyOK stxOK d429 dOK hK h429 hOK hlo hhi
    show LeagueData.apiFetchGo resp 1000 20000 700 12000 1 7 = _
    exact apiFetchGo_429_then_ok 1000 20000 700 12000 body stx bodyOK stxOK d429 dOK st
      K 1 7 resp hK (fun a ha hb => h429 a ha (by omega))
      (by rw [Nat.add_comm 1 K]; exact hOK) hlo hhi
  · intro start K
    exact backoff_schedule_pairwise 1000 20000 start K
  · intro α resp body stx d429 h429
    show LeagueData.apiFetchGo resp 1000 20000 700 12000 1 7 = _
    exact apiFetchGo_all429 1000 20000 700 12000 body stx d429 7 1 resp
      (fun a ha hb => h429 a ha (by omega))

/-- C4 witness: two 429s then a 200 succeed on the third request with
delays 1000 then 2000; seven straight 429s end in the error result. -/
theorem C4_witness :
    LeagueData.apiFetch true Checks.resp429Twice =
      (.ok 42, (List.range 2).map (fun i => LeagueData.backoffDelay 1000 20000 (1 + i)), 3) ∧
    LeagueData.apiFetch true Checks.respAll429 =
      (.err "Unknown error" none,
       (List.range 7).map (fun i => LeagueData.backoffDelay 1000 20000 (1 + i)), 7) :=
  ⟨C4_backoff_retry.1 Nat Checks.resp429Twice 2 200 "" "Too Many Requests" "" "OK" 0 42
     (by omega)
     (fun a h1 h2 => by unfold Checks.resp429Twice; rw [if_pos h2])
     (by rfl) (by omega) (by omega),
   C4_backoff_retry.2.2.2 Nat Checks.respAll429 "" "Too Many Requests" 0
     (fun a h1 h2 => rfl)⟩

/-! ### Claim C8 -/

/-- C8 counterexample: `apiFootball` (cited by the claim alongside
`apiFetch`) raises on a missing credential — `Except.error` here models a
thrown `Error` — instead of returning a tagged "missing credential"
result. -/
theorem C8_counterexample :
    ApiFootball.apiFootball (α := Nat) none (.resp 200 "" "OK" 1) =
      .error ("Missing APISPORTS_KEY env var. " ++
        "Add it in Vercel Project → Settings → Environment Variables.") :=
  rfl

/-- C8 amended: the rate-limited client `apiFetch` never throws for
expected failure modes — a missing credential returns at once (zero
requests, zero delays) as a tagged error, a non-ok non-429 status
returns a tagged error carrying the status after the single request, and
429 exhaustion returns a tagged error; the `apiFootball` helper, by
contrast, throws on a missing credential. -/
theorem C8_fetch_error_modes :
    (∀ (α : Type) (resp : Nat → LeagueData.HttpEvent α),
       LeagueData.apiFetch false resp = (.err "Missing APISPORTS_KEY env var" none, [], 0)) ∧
    (∀ (α : Type) (resp : Nat → LeagueData.HttpEvent α) (st : Nat) (body stx : String) (d : α),
       resp 1 = .resp st body stx d → ¬ (200 ≤ st ∧ st ≤ 299) → st ≠ 429 →
       LeagueData.apiFetch true resp =
         (.err ("API " ++ toString st ++ ": " ++ (if body = "" then stx else body)) (some st),
          [], 1)) ∧
    (∀ (α : Type) (resp : Nat → LeagueData.HttpEvent α) (body stx : String) (d429 : α),
       (∀ a, 1 ≤ a → a ≤ 7 → resp a = .resp 429 body stx d429) →
       (LeagueData.apiFetch true resp).1 = .err "Unknown error" none) ∧
    (∀ (α : Type) (ev : LeagueData.HttpEvent α),
       ApiFootball.apiFootball none ev =
         .error ("Missing APISPORTS_KEY env var. " ++
           "Add it in Vercel Project → Settings → Environment Variables.")) := by
  refine ⟨fun α resp => rfl, ?_, ?_, fun α ev => rfl⟩
  · intro α resp st body stx d h1 h2xx h429
    show LeagueData.apiFetchGo resp 1000 20000 700 12000 1 7 = _
    unfold LeagueData.apiFetchGo
    simp only [h1]
    rw [if_neg h429, if_neg h2xx]
  · intro α resp body stx d429 h429
    show (LeagueData.apiFetchGo resp 1000 20000 700 12000 1 7).1 = _
    rw [apiFetchGo_all429 1000 20000 700 12000 body stx d429 7 1 resp
      (fun a ha hb => h429 a ha (by omega))]

/-- C8 witness: the error modes at concrete inputs — missing key with a
404-answering upstream, a 404 with the key present, and 429 exhaustion. -/
theorem C8_witness :
    LeagueData.apiFetch (α := Nat) false Checks.resp404 =
      (.err "Missing APISPORTS_KEY env var" none, [], 0) ∧
    LeagueData.apiFetch true Checks.resp404 =
      (.err "API 404: not found" (some 404), [], 1) ∧
    (LeagueData.apiFetch true Checks.respAll429).1 = .err "Unknown error" none :=
  ⟨C8_fetch_error_modes.1 Nat Checks.resp404,
   C8_fetch_error_modes.2.1 Nat Checks.resp404 404 "not found" "Not Found" 0 rfl
     (by omega) (by omega),
   C8_fetch_error_modes.2.2.1 Nat Checks.respAll429 "" "Too Many Requests" 0
     (fun a h1 h2 => rfl)⟩

/-! ### Claim C7 -/

/-- The 0.6 overlap threshold over exact rationals coincides with the
integer comparison the source's arithmetic performs. -/
theorem ratio_ge_iff (c n : Nat) (hn : 0 < n) :
    ((3 : ℚ) / 5 ≤ (c : ℚ) / (n : ℚ)) ↔ 3 * n ≤ 5 * c := by
  rw [div_le_div_iff₀ (by norm_num) (by exact_mod_cast hn)]
  rw [show ((5 : ℚ)) = ((5 : Nat) : ℚ) by norm_num,
      show ((3 : ℚ)) = ((3 : Nat) : ℚ) by norm_num,
      ← Nat.cast_mul, ← Nat.cast_mul, Nat.cast_le]
  omega

/-- C7: two names match exactly under the spec's rule — equality after
normalization, containment, or token-overlap ratio reaching 0.6 on
either side — and consequently the effective-ID set of roster entry
"Club América" against a fixture listing participant "America" with id
2000 contains both the roster id 1000 and the fixture's id 2000. -/
theorem C7_name_reconciliation :
    (∀ a b : String, LeagueData.nameMatches a b = true ↔ LeagueData.specNameMatches a b) ∧
    1000 ∈ LeagueData.resolveEffectiveIds Checks.americaTeam
      (LeagueData.buildFixtureAliasIndex [Checks.americaFx]) ∧
    2000 ∈ LeagueData.resolveEffectiveIds Checks.americaTeam
      (LeagueData.buildFixtureAliasIndex [Checks.americaFx]) := by
  refine ⟨?_, by decide, by decide⟩
  intro a b
  simp only [LeagueData.nameMatches, LeagueData.specNameMatches, LeagueData.commonTokens]
  split_ifs with h1 h2 h3 h4
  · simp only [Bool.false_eq_true, false_iff, not_and]
    intro hA hB
    rcases h1 with h | h
    · exact absurd h hA
    · exact absurd h hB
  · push_neg at h1
    simp only [true_iff]
    exact ⟨h1.1, h1.2, Or.inl h2⟩
  · push_neg at h1
    simp only [true_iff]
    refine ⟨h1.1, h1.2, Or.inr ?_⟩
    rcases h3 with h | h
    · exact Or.inl h
    · exact Or.inr (Or.inl h)
  · simp only [Bool.false_eq_true, false_iff]
    rintro ⟨hA, hB, (hEq | hInc1 | hInc2 | ⟨ht1, ht2, _⟩)⟩
    · exact h2 hEq
    · exact h3 (Or.inl hInc1)
    · exact h3 (Or.inr hInc2)
    · rcases h4 with h0 | h0
      · exact ht1 (List.length_eq_zero.mp h0)
      · exact ht2 (List.length_eq_zero.mp h0)
  · push_neg at h1 h4
    have hta : 0 < (LeagueData.tokens (LeagueData.normName a)).length :=
      Nat.pos_of_ne_zero h4.1
    have htb : 0 < (LeagueData.tokens (LeagueData.normName b)).length :=
      Nat.pos_of_ne_zero h4.2
    simp only [Bool.or_eq_true, decide_eq_true_eq, ge_iff_le]
    constructor
    · rintro (h | h)
      · exact ⟨h1.1, h1.2, Or.inr (Or.inr (Or.inr
          ⟨fun he => h4.1 (by rw [he]; rfl), fun he => h4.2 (by rw [he]; rfl),
           Or.inl ((ratio_ge_iff _ _ hta).mpr h)⟩))⟩
      · exact ⟨h1.1, h1.2, Or.inr (Or.inr (Or.inr
          ⟨fun he => h4.1 (by rw [he]; rfl), fun he => h4.2 (by rw [he]; rfl),
           Or.inr ((ratio_ge_iff _ _ htb).mpr h)⟩))⟩
    · rintro ⟨hA, hB, (hEq | hInc1 | hInc2 | ⟨ht1, ht2, (hr | hr)⟩)⟩
      · exact absurd hEq h2
      · exact absurd (Or.inl hInc1) h3
      · exact absurd (Or.inr hInc2) h3
      · exact Or.inl ((ratio_ge_iff _ _ hta).mp hr)
      · exact Or.inr ((ratio_ge_iff _ _ htb).mp hr)

/-- C7 witness: the fuzzy rule holds of the concrete pair — "Club
América" and "America" match under the spec's wording. -/
theorem C7_witness :
    LeagueData.specNameMatches "Club América" "America" :=
  (C7_name_reconciliation.1 "Club América" "America").mp (by decide)

/-! ### Claim C9 -/

/-- Everything one season's fetch contributes is finished. -/
theorem mem_fetchSeasonFinished {env : LeagueData.Env} {lid s : Nat} {fx : LeagueData.Fixture}
    (h : fx ∈ LeagueData.fetchSeasonFinished env lid s) :
    fx.statusShort ∈ LeagueData.FINISHED := by
  unfold LeagueData.fetchSeasonFinished at h
  rcases henv : env.leagueFixtures lid s with _ | l
  · rw [henv] at h
    cases h
  · rw [henv] at h
    exact of_decide_eq_true (List.mem_filter.mp h).2

/-- C9: the cross-season fixture selection contains only finished
fixtures (status FT, AET or PEN), contains each fixture id at most once
after merging the two seasons' lists, is sorted descending by date, and
covers exactly the finished fixtures fetched from the current and the
immediately prior season — all before the per-team partitioning and the
cap at 7 are applied. -/
theorem C9_finished_selection (env : LeagueData.Env) (leagueId season : Nat) :
    (∀ fx ∈ LeagueData.getLeagueFinishedFixturesAcrossSeasons env leagueId season,
       fx.statusShort ∈ LeagueData.FINISHED) ∧
    ((LeagueData.getLeagueFinishedFixturesAcrossSeasons env leagueId season).map
      (fun fx => fx.id)).Nodup ∧
    (LeagueData.getLeagueFinishedFixturesAcrossSeasons env leagueId season).Pairwise
      LeagueData.dateGe ∧
    (∀ fx ∈ LeagueData.getLeagueFinishedFixturesAcrossSeasons env leagueId season,
       fx ∈ LeagueData.fetchSeasonFinished env leagueId season ++
         LeagueData.fetchSeasonFinished env leagueId (season - 1)) ∧
    (∀ fx ∈ LeagueData.fetchSeasonFinished env leagueId season ++
         LeagueData.fetchSeasonFinished env leagueId (season - 1),
       fx.id ∈ (LeagueData.getLeagueFinishedFixturesAcrossSeasons env leagueId season).map
         (fun fx => fx.id)) := by
  have hperm := LeagueData.sortByDateDesc_perm (LeagueData.dedupByFixtureId
    (LeagueData.fetchSeasonFinished env leagueId season ++
     LeagueData.fetchSeasonFinished env leagueId (season - 1)))
  have hmem : ∀ fx ∈ LeagueData.getLeagueFinishedFixturesAcrossSeasons env leagueId season,
      fx ∈ LeagueData.fetchSeasonFinished env leagueId season ++
        LeagueData.fetchSeasonFinished env leagueId (season - 1) := by
    intro fx hfx
    exact LeagueData.mem_dedupByFixtureId (hperm.mem_iff.mp hfx)
  refine ⟨?_, ?_, LeagueData.sortByDateDesc_sorted _, hmem, ?_⟩
  · intro fx hfx
    rcases List.mem_append.mp (hmem fx hfx) with h | h
    · exact mem_fetchSeasonFinished h
    · exact mem_fetchSeasonFinished h
  · exact (hperm.map (fun fx => fx.id)).nodup_iff.mpr (LeagueData.dedupByFixtureId_nodup_ids _)
  · intro fx hfx
    exact (hperm.map (fun fx => fx.id)).mem_iff.mpr (LeagueData.dedupByFixtureId_covers hfx)

/-- C9 witness: on the two-season environment of league 7 the selection
keeps the shared fixture once, stays finished-only and sorted. -/
theorem C9_witness :
    Checks.fxS1 ∈ LeagueData.getLeagueFinishedFixturesAcrossSeasons Checks.envSeasons 7 2025 ∧
    Checks.fxS1.statusShort ∈ LeagueData.FINISHED ∧
    ((LeagueData.getLeagueFinishedFixturesAcrossSeasons Checks.envSeasons 7 2025).map
      (fun fx => fx.id)).Nodup ∧
    (LeagueData.getLeagueFinishedFixturesAcrossSeasons Checks.envSeasons 7 2025).Pairwise
      LeagueData.dateGe ∧
    Checks.fxS4.id ∈ (LeagueData.getLeagueFinishedFixturesAcrossSeasons
      Checks.envSeasons 7 2025).map (fun fx => fx.id) :=
  ⟨by decide,
   (C9_finished_selection Checks.envSeasons 7 2025).1 Checks.fxS1 (by decide),
   (C9_finished_selection Checks.envSeasons 7 2025).2.1,
   (C9_finished_selection Checks.envSeasons 7 2025).2.2.1,
   (C9_finished_selection Checks.envSeasons 7 2025).2.2.2.2 Checks.fxS4 (by decide)⟩

/-! ### Claim C3 -/

/-- C3 counterexample: `buildAllBoards` fetches statistics per team with
no cross-team deduplication — the fixture shared by teams 10 and 20 is
requested twice within one league build. -/
theorem C3_counterexample :
    BuildBoards.bbStatRequests Checks.bbEnvShared Checks.bbCfg = [100, 100] ∧
    (BuildBoards.bbStatRequests Checks.bbEnvShared Checks.bbCfg).count 100 = 2 ∧
    ¬ ((2 : Nat) ≤ 1) :=
  ⟨by decide, by decide, by decide⟩

/-- C3 amended: in `getLeagueBoards` the fixture-id set handed to the
stat/event fetch phase is deduplicated across all teams — it has no
duplicates, contains exactly the displayed fixture ids, and so requests
every displayed fixture id exactly once; `buildAllBoards`, by contrast,
fetches per team without deduplication. -/
theorem C3_stat_requests_dedup :
    (∀ perTeam : List LeagueData.PerTeam, (LeagueData.statRequests perTeam).Nodup) ∧
    (∀ (perTeam : List LeagueData.PerTeam) (fid : Nat),
       fid ∈ LeagueData.statRequests perTeam ↔
         ∃ pt ∈ perTeam, fid ∈ pt.fixtures.map (fun fx => fx.id)) ∧
    (∀ (perTeam : List LeagueData.PerTeam) (fid : Nat),
       (∃ pt ∈ perTeam, fid ∈ pt.fixtures.map (fun fx => fx.id)) →
       (LeagueData.statRequests perTeam).count fid = 1) := by
  have hmem : ∀ (perTeam : List LeagueData.PerTeam) (fid : Nat),
      fid ∈ LeagueData.statRequests perTeam ↔
        ∃ pt ∈ perTeam, fid ∈ pt.fixtures.map (fun fx => fx.id) := by
    intro perTeam fid
    unfold LeagueData.statRequests
    rw [mem_foldl_insertUniq]
    constructor
    · rintro (h | h)
      · cases h
      · rcases List.mem_flatten.mp h with ⟨l, hl, hfid⟩
        rcases List.mem_map.mp hl with ⟨pt, hpt, rfl⟩
        exact ⟨pt, hpt, hfid⟩
    · rintro ⟨pt, hpt, hfid⟩
      exact Or.inr (List.mem_flatten.mpr ⟨_, List.mem_map_of_mem _ hpt, hfid⟩)
  have hnodup : ∀ perTeam : List LeagueData.PerTeam,
      (LeagueData.statRequests perTeam).Nodup :=
    fun perTeam => nodup_foldl_insertUniq _ [] List.nodup_nil
  refine ⟨hnodup, hmem, ?_⟩
  intro perTeam fid hfid
  exact List.count_eq_one_of_mem (hnodup perTeam) ((hmem perTeam fid).mpr hfid)

/-- C3 witness: under team Alpha's selection, fixture 201 is displayed
and requested exactly once. -/
theorem C3_witness :
    (∃ pt ∈ [Checks.ptA], 201 ∈ pt.fixtures.map (fun fx => fx.id)) ∧
    (LeagueData.statRequests [Checks.ptA]).Nodup ∧
    (LeagueData.statRequests [Checks.ptA]).count 201 = 1 :=
  ⟨by decide,
   C3_stat_requests_dedup.1 [Checks.ptA],
   C3_stat_requests_dedup.2.2 [Checks.ptA] 201 (by decide)⟩

/-! ### Claim C2 -/

/-- Mapping commutes with index removal. -/
theorem map_eraseIdx_comm {α β : Type} (f : α → β) :
    ∀ (l : List α) (i : Nat), (l.eraseIdx i).map f = (l.map f).eraseIdx i
  | [], _ => rfl
  | _ :: _, 0 => rfl
  | a :: l, i + 1 => by
    simp only [List.eraseIdx_cons_succ, List.map_cons]
    rw [map_eraseIdx_comm f l i]

/-- A league whose season or roster resolution fails produces the error
board with no teams. -/
theorem processLeague_fail {env : LeagueData.Env} {cfg : LeagueData.LeagueConfig}
    (h : LeagueData.resolutionFails env cfg = true) :
    LeagueData.processLeague env cfg =
      { leagueId := cfg.leagueId, leagueName := cfg.leagueName,
        seasonUsed := LeagueData.resolvedSeason env cfg,
        error := some (LeagueData.failureMessage env cfg), teams := [] } := by
  unfold LeagueData.resolutionFails at h
  rcases hs : LeagueData.resolvedSeason env cfg with _ | season
  · simp only [LeagueData.processLeague, LeagueData.failureMessage, hs]
  · simp only [hs] at h
    rcases ht : LeagueData.getTeamsForLeague env cfg.leagueId season with _ | teams
    · simp only [LeagueData.processLeague, LeagueData.failureMessage, hs, ht]
    · simp only [ht] at h
      simp only [LeagueData.processLeague, LeagueData.failureMessage, hs, ht, h, if_true]

/-- The failure message of a failing league is never empty. -/
theorem failureMessage_ne_empty (env : LeagueData.Env) (cfg : LeagueData.LeagueConfig) :
    LeagueData.failureMessage env cfg ≠ "" := by
  unfold LeagueData.failureMessage
  split <;> decide

/-- C2: leagues are processed independently — a league whose season or
roster resolution fails yields a board with an empty teams array and a
non-empty error string, and removing that league from the config list
leaves every other league's board unchanged. -/
theorem C2_partial_failure_isolation (env : LeagueData.Env)
    (cfgs : List LeagueData.LeagueConfig) (i : Nat) (cfg : LeagueData.LeagueConfig)
    (hget : cfgs[i]? = some cfg) (hfail : LeagueData.resolutionFails env cfg = true) :
    (LeagueData.getLeagueBoards env cfgs)[i]? =
      some { leagueId := cfg.leagueId, leagueName := cfg.leagueName,
             seasonUsed := LeagueData.resolvedSeason env cfg,
             error := some (LeagueData.failureMessage env cfg), teams := [] } ∧
    LeagueData.failureMessage env cfg ≠ "" ∧
    LeagueData.getLeagueBoards env (cfgs.eraseIdx i) =
      (LeagueData.getLeagueBoards env cfgs).eraseIdx i := by
  refine ⟨?_, failureMessage_ne_empty env cfg, ?_⟩
  · unfold LeagueData.getLeagueBoards
    rw [List.getElem?_map, hget]
    exact congrArg some (processLeague_fail hfail)
  · unfold LeagueData.getLeagueBoards
    exact map_eraseIdx_comm (LeagueData.processLeague env) cfgs i

/-- C2 witness: with league 2's season metadata empty, its board is the
error board and dropping it leaves leagues 1 and 3 untouched. -/
theorem C2_witness :
    Checks.cfgsA[1]? = some ⟨2, "L2"⟩ ∧
    LeagueData.resolutionFails Checks.envA ⟨2, "L2"⟩ = true ∧
    (LeagueData.getLeagueBoards Checks.envA Checks.cfgsA)[1]? =
      some { leagueId := 2, leagueName := "L2",
             seasonUsed := LeagueData.resolvedSeason Checks.envA ⟨2, "L2"⟩,
             error := some (LeagueData.failureMessage Checks.envA ⟨2, "L2"⟩), teams := [] } ∧
    LeagueData.getLeagueBoards Checks.envA (Checks.cfgsA.eraseIdx 1) =
      (LeagueData.getLeagueBoards Checks.envA Checks.cfgsA).eraseIdx 1 :=
  ⟨by decide, by decide,
   (C2_partial_failure_isolation Checks.envA Checks.cfgsA 1 ⟨2, "L2"⟩ (by decide) (by decide)).1,
   (C2_partial_failure_isolation Checks.envA Checks.cfgsA 1 ⟨2, "L2"⟩
     (by decide) (by decide)).2.2⟩

/-! ### Claim C1 -/

/-- Every assembled team board has exactly 7 slots. -/
theorem buildTeamBoard_length (pt : LeagueData.PerTeam)
    (fstats : Nat → Option Int × Option Int) :
    ((LeagueData.buildTeamBoard pt fstats).«matches»).length = 7 := by
  show (((pt.fixtures.map (LeagueData.realCard pt.team pt.effectiveIds fstats)).take 7) ++
    List.replicate (7 - ((pt.fixtures.map
      (LeagueData.realCard pt.team pt.effectiveIds fstats)).take 7).length)
      LeagueData.blankMatch).length = 7
  rw [List.length_append, List.length_replicate]
  have h := List.length_take_le 7
    (pt.fixtures.map (LeagueData.realCard pt.team pt.effectiveIds fstats))
  omega

/-- Every team of every board the pipeline emits is an assembled team
board (error boards carry no teams at all). -/
theorem mem_processLeague_teams {env : LeagueData.Env} {cfg : LeagueData.LeagueConfig}
    {t : LeagueData.TeamBoard} (ht : t ∈ (LeagueData.processLeague env cfg).teams) :
    ∃ pt, t = LeagueData.buildTeamBoard pt (LeagueData.fixtureStats env) := by
  unfold LeagueData.processLeague at ht
  split at ht
  · cases ht
  · split at ht
    · cases ht
    · split at ht
      · cases ht
      · rcases List.mem_map.mp ht with ⟨pt, _, rfl⟩
        exact ⟨pt, rfl⟩

/-- C1 counterexample: the `buildAllBoards` entry point does not pad — a
team with three finished fixtures gets a match list of length 3, not 7. -/
theorem C1_counterexample :
    (BuildBoards.buildAllBoards Checks.bbEnvShort [Checks.bbCfg]).map
      (fun b => b.teams.map (fun t => t.«matches».length)) = [[3]] ∧
    ¬ ((3 : Nat) = 7) :=
  ⟨by decide, by decide⟩

/-- C1 amended: every team of every board of `getLeagueBoards` has a
match list of length exactly 7 — the per-team selection never exceeds 7
fixtures and, when non-empty in the league list, is the 7-prefix of the
(descending-sorted) filtered league fixtures; the real slots occupy the
prefix and the remaining positions are the blank slot (fixtureId 0,
opponent "-", stats null).  The `buildAllBoards` entry point instead
truncates at 7 but never pads. -/
theorem C1_always_seven_slots :
    (∀ (env : LeagueData.Env) (cfgs : List LeagueData.LeagueConfig),
       ∀ b ∈ LeagueData.getLeagueBoards env cfgs, ∀ t ∈ b.teams,
         t.«matches».length = 7) ∧
    (∀ (pt : LeagueData.PerTeam) (fstats : Nat → Option Int × Option Int),
       ((LeagueData.buildTeamBoard pt fstats).«matches»).take (min 7 pt.fixtures.length) =
         (pt.fixtures.take 7).map (LeagueData.realCard pt.team pt.effectiveIds fstats)) ∧
    (∀ (pt : LeagueData.PerTeam) (fstats : Nat → Option Int × Option Int),
       ((LeagueData.buildTeamBoard pt fstats).«matches»).drop (min 7 pt.fixtures.length) =
         List.replicate (7 - min 7 pt.fixtures.length) LeagueData.blankMatch) ∧
    (∀ (env : LeagueData.Env) (L : List LeagueData.Fixture) (t : LeagueData.TeamInfo)
       (ids : List Nat), (LeagueData.selectTeamFixtures env L t ids).fixtures.length ≤ 7) ∧
    (∀ (env : LeagueData.Env) (L : List LeagueData.Fixture) (t : LeagueData.TeamInfo)
       (ids : List Nat),
       ((L.filter (fun fx => LeagueData.teamInFixture t ids fx)).take 7).isEmpty = false →
       LeagueData.selectTeamFixtures env L t ids =
         ⟨t, ids, (L.filter (fun fx => LeagueData.teamInFixture t ids fx)).take 7⟩) ∧
    (LeagueData.blankMatch.fixtureId = 0 ∧ LeagueData.blankMatch.opponent = "-" ∧
     LeagueData.blankMatch.goalsTotal = none ∧ LeagueData.blankMatch.cornersTotal = none ∧
     LeagueData.blankMatch.cardsTotal = none) := by
  have hreal : ∀ (pt : LeagueData.PerTeam) (fstats : Nat → Option Int × Option Int),
      ((pt.fixtures.map (LeagueData.realCard pt.team pt.effectiveIds fstats)).take 7).length =
        min 7 pt.fixtures.length := by
    intro pt fstats
    rw [List.length_take, List.length_map]
  refine ⟨?_, ?_, ?_, ?_, ?_, rfl, rfl, rfl, rfl, rfl⟩
  · intro env cfgs b hb t ht
    rcases List.mem_map.mp hb with ⟨cfg, _, rfl⟩
    rcases mem_processLeague_teams ht with ⟨pt, rfl⟩
    exact buildTeamBoard_length pt (LeagueData.fixtureStats env)
  · intro pt fstats
    show (((pt.fixtures.map (LeagueData.realCard pt.team pt.effectiveIds fstats)).take 7) ++
      List.replicate (7 - ((pt.fixtures.map
        (LeagueData.realCard pt.team pt.effectiveIds fstats)).take 7).length)
        LeagueData.blankMatch).take (min 7 pt.fixtures.length) = _
    rw [← hreal pt fstats, List.take_left, List.map_take]
  · intro pt fstats
    show (((pt.fixtures.map (LeagueData.realCard pt.team pt.effectiveIds fstats)).take 7) ++
      List.replicate (7 - ((pt.fixtures.map
        (LeagueData.realCard pt.team pt.effectiveIds fstats)).take 7).length)
        LeagueData.blankMatch).drop (min 7 pt.fixtures.length) = _
    rw [← hreal pt fstats, List.drop_left]
  · intro env L t ids
    simp only [LeagueData.selectTeamFixtures, LeagueData.teamFallbackFixtures]
    repeat' split
    all_goals exact List.length_take_le ..
  · intro env L t ids h
    simp only [LeagueData.selectTeamFixtures, h]
    rw [if_neg]
    simp

/-- C1 witness: league 1's board under `envA` carries team Alpha with
exactly 7 slots, and a concrete per-team selection stays within 7. -/
theorem C1_witness :
    Checks.boardA ∈ LeagueData.getLeagueBoards Checks.envA Checks.cfgsA ∧
    Checks.teamRowA ∈ Checks.boardA.teams ∧
    Checks.teamRowA.«matches».length = 7 ∧
    (LeagueData.selectTeamFixtures Checks.envA [] ⟨10, "Alpha", ""⟩ [10]).fixtures.length ≤ 7 :=
  ⟨by decide, by decide,
   C1_always_seven_slots.1 Checks.envA Checks.cfgsA Checks.boardA (by decide)
     Checks.teamRowA (by decide),
   C1_always_seven_slots.2.2.2.1 Checks.envA [] ⟨10, "Alpha", ""⟩ [10]⟩

